import Mathlib

/-!
Verification of the MIPS simulator repository: a shallow embedding of the
simulator cores, the five-stage pipeline, the memory and register accessors
and the branch-predictor family, together with theorems settling the
specification claims.  Machine integers are modelled as `Nat` with explicit
`% 2 ^ 32` where `uint32_t` overflow matters; `std::vector` element
assignment is modelled by pointwise function update.
-/

/-- Truncation to 32 bits, as performed by assignment to a `uint32_t`. -/
def u32 (n : Nat) : Nat := n % 2 ^ 32

/-- Bitwise complement of a 32-bit value (`~x` on `uint32_t`, for `x < 2 ^ 32`). -/
def u32not (n : Nat) : Nat := 0xFFFFFFFF - n

/-- Wrapping 32-bit subtraction (`a - b` on `uint32_t`, for `a, b < 2 ^ 32`). -/
def u32sub (a b : Nat) : Nat := (a + (2 ^ 32 - b)) % 2 ^ 32

/-- Conversion of a C `int` value to `uint32_t` (two's complement, mod 2^32). -/
def toUInt32 (z : Int) : Nat := (z % (2 : Int) ^ 32).toNat

/-- Reinterpretation of a `uint32_t` value as a signed `int32_t`. -/
def toInt32 (n : Nat) : Int := if n < 2 ^ 31 then (n : Int) else (n : Int) - 2 ^ 32

/-- Sign extension performed by the C cast `(int16_t)immediate` on a 16-bit value. -/
def sext16 (n : Nat) : Int := if n < 2 ^ 15 then (n : Int) else (n : Int) - 2 ^ 16

/-- Element assignment `f[i] = v` on an array modelled as a function. -/
def store {α : Type} (f : Nat → α) (i : Nat) (v : α) : Nat → α :=
  fun j => if j = i then v else f j

/-! ## Constants from `instruction_decoder.hpp` (`namespace MIPS`) -/

namespace MIPS

def OPCODE_RTYPE : Nat := 0x00

def FUNCT_ADD : Nat := 0x20

def FUNCT_SUB : Nat := 0x22

def FUNCT_AND : Nat := 0x24

def FUNCT_OR : Nat := 0x25

def FUNCT_SLT : Nat := 0x28

def FUNCT_JR : Nat := 0x08

def OPCODE_ADDI : Nat := 0x08

def OPCODE_LW : Nat := 0x23

def OPCODE_SW : Nat := 0x2B

def OPCODE_BEQ : Nat := 0x04

def OPCODE_BNE : Nat := 0x05

def OPCODE_J : Nat := 0x02

def OPCODE_JAL : Nat := 0x03

end MIPS

/-! ## The ALU (`alu.hpp` / `alu.cpp`) -/

namespace ALU

inductive Operation where
  | ADD | SUB | AND | OR | XOR | NOR | SLT | SLTU | SLL | SRL | SRA
deriving DecidableEq

structure Result where
  value : Nat
  zero : Bool
  overflow : Bool
  carry : Bool

/-- `ALU::detectOverflow`: signed-overflow predicate on the 32-bit operands. -/
def detectOverflow (a b result : Nat) (is_sub : Bool) : Bool :=
  let b := if is_sub then u32 (u32not b + 1) else b
  let a_sign := (a &&& 0x80000000) != 0
  let b_sign := (b &&& 0x80000000) != 0
  let result_sign := (result &&& 0x80000000) != 0
  a_sign == b_sign && a_sign != result_sign

/-- `ALU::execute` (two-operand overload). -/
def execute (operand1 operand2 : Nat) (op : Operation) : Result :=
  let val : Nat × Bool × Bool :=  -- (value, overflow, carry)
    match op with
    | .ADD =>
        let v := u32 (operand1 + operand2)
        (v, detectOverflow operand1 operand2 v false, decide (v < operand1))
    | .SUB =>
        let v := u32sub operand1 operand2
        (v, detectOverflow operand1 operand2 v true, decide (operand1 < operand2))
    | .AND => (operand1 &&& operand2, false, false)
    | .OR => (operand1 ||| operand2, false, false)
    | .XOR => (operand1 ^^^ operand2, false, false)
    | .NOR => (u32not (operand1 ||| operand2), false, false)
    | .SLT => (if toInt32 operand1 < toInt32 operand2 then 1 else 0, false, false)
    | .SLTU => (if operand1 < operand2 then 1 else 0, false, false)
    | _ => (0, false, false)
  { value := val.1, zero := val.1 == 0, overflow := val.2.1, carry := val.2.2 }

end ALU

/-! ## The `MIPSSimulator` core (`mips_simulator.hpp` / its .cpp file) -/

namespace MIPSSimulator

/-- `MIPSSimulator::PipelineStage`. -/
structure PStage where
  instruction : Nat
  pc : Nat
  valid : Bool
  stall : Bool
  flush : Bool

def PStage.empty : PStage := ⟨0, 0, false, false, false⟩

/-- `MIPSSimulator::Instruction` (the `type` field is a `std::string`). -/
structure Instruction where
  raw : Nat
  opcode : Nat
  rs : Nat
  rt : Nat
  rd : Nat
  immediate : Nat
  jump_addr : Nat
  funct : Nat
  shamt : Nat
  type : String

/-- Size of the memory vector constructed as `memory(65536, 0)`. -/
def memorySize : Nat := 65536

/-- State of a `MIPSSimulator` object.  The register and memory vectors are
modelled as total functions; `branch_history_table` is the `std::map` with its
value-initialised default `false`. -/
structure State where
  registers : Nat → Nat
  memory : Nat → Nat
  pc : Nat
  halted : Bool
  step_mode : Bool
  pipeline_enabled : Bool
  pipeline_stages : List PStage
  branch_prediction_enabled : Bool
  prediction_type : String
  branch_history_table : Nat → Bool
  total_branches : Nat
  correct_predictions : Nat
  incorrect_predictions : Nat

/-- `MIPSSimulator::initializePipeline`. -/
def initializePipeline (s : State) : State :=
  { s with pipeline_stages := List.replicate 5 PStage.empty }

/-- The `MIPSSimulator` constructor. -/
def create : State :=
  initializePipeline
    { registers := fun _ => 0
      memory := fun _ => 0
      pc := 0
      halted := false
      step_mode := false
      pipeline_enabled := false
      pipeline_stages := []
      branch_prediction_enabled := false
      prediction_type := "static"
      branch_history_table := fun _ => false
      total_branches := 0
      correct_predictions := 0
      incorrect_predictions := 0 }

/-- `MIPSSimulator::isValidAddress`: `address < memory.size() - 3` (the
subtraction and comparison happen in `size_t`, without wraparound). -/
def isValidAddress (address : Nat) : Bool := decide (address < memorySize - 3)

/-- The big-endian word load `(memory[a] << 24) | ... | memory[a+3]` inlined at
several places of the source. -/
def loadWord (memory : Nat → Nat) (a : Nat) : Nat :=
  (memory a <<< 24) ||| (memory (a + 1) <<< 16) ||| (memory (a + 2) <<< 8) ||| memory (a + 3)

/-- The big-endian word store `memory[a] = (v >> 24) & 0xFF; ...` inlined at
several places of the source.  Under the guard `isValidAddress a` the index
arithmetic cannot wrap in `uint32_t`. -/
def storeWord (memory : Nat → Nat) (a v : Nat) : Nat → Nat :=
  store (store (store (store memory a ((v >>> 24) &&& 0xFF))
    (a + 1) ((v >>> 16) &&& 0xFF))
    (a + 2) ((v >>> 8) &&& 0xFF))
    (a + 3) (v &&& 0xFF)

/-- `MIPSSimulator::signExtend16` (result is a `uint32_t`). -/
def signExtend16 (value : Nat) : Nat :=
  if (value &&& 0x8000) != 0 then value ||| 0xFFFF0000 else value

/-- `MIPSSimulator::decodeInstruction`. -/
def decodeInstruction (instruction : Nat) : Instruction :=
  { raw := instruction
    opcode := (instruction >>> 26) &&& 0x3F
    rs := (instruction >>> 21) &&& 0x1F
    rt := (instruction >>> 16) &&& 0x1F
    rd := (instruction >>> 11) &&& 0x1F
    shamt := (instruction >>> 6) &&& 0x1F
    funct := instruction &&& 0x3F
    immediate := instruction &&& 0xFFFF
    jump_addr := instruction &&& 0x3FFFFFF
    type :=
      if (instruction >>> 26) &&& 0x3F = 0 then "R"
      else if (instruction >>> 26) &&& 0x3F = 2 ∨ (instruction >>> 26) &&& 0x3F = 3 then "J"
      else "I" }

/-- `MIPSSimulator::predictBranch`. -/
def predictBranch (s : State) (pc : Nat) : Bool :=
  if s.prediction_type = "static" then false
  else if s.prediction_type = "dynamic" then s.branch_history_table pc
  else false

/-- `MIPSSimulator::updateBranchPredictor`. -/
def updateBranchPredictor (s : State) (pc : Nat) (taken : Bool) : State :=
  if s.prediction_type = "dynamic" then
    { s with branch_history_table := store s.branch_history_table pc taken }
  else s

/-- The branch-statistics block shared by the `BEQ` and `BNE` cases of
`MIPSSimulator::executeInstruction`. -/
def recordBranch (s : State) (branch_taken : Bool) : State :=
  if s.branch_prediction_enabled then
    let s := { s with total_branches := s.total_branches + 1 }
    let predicted := predictBranch s s.pc
    let s :=
      if predicted == branch_taken then
        { s with correct_predictions := s.correct_predictions + 1 }
      else
        { s with incorrect_predictions := s.incorrect_predictions + 1 }
    updateBranchPredictor s s.pc branch_taken
  else s

/-- `MIPSSimulator::executeInstruction`.  The function always returns `true`
in the source; the returned flag is kept for fidelity. -/
def executeInstruction (s : State) (instr : Instruction) : Bool × State :=
  let next_pc := u32 (s.pc + 4)
  let s :=
    if instr.type = "R" then
      if instr.funct = MIPS.FUNCT_ADD then
        { s with
          registers := store s.registers instr.rd
            (ALU.execute (s.registers instr.rs) (s.registers instr.rt) ALU.Operation.ADD).value,
          pc := next_pc }
      else if instr.funct = MIPS.FUNCT_SUB then
        { s with
          registers := store s.registers instr.rd
            (ALU.execute (s.registers instr.rs) (s.registers instr.rt) ALU.Operation.SUB).value,
          pc := next_pc }
      else if instr.funct = MIPS.FUNCT_AND then
        { s with
          registers := store s.registers instr.rd
            (ALU.execute (s.registers instr.rs) (s.registers instr.rt) ALU.Operation.AND).value,
          pc := next_pc }
      else if instr.funct = MIPS.FUNCT_OR then
        { s with
          registers := store s.registers instr.rd
            (ALU.execute (s.registers instr.rs) (s.registers instr.rt) ALU.Operation.OR).value,
          pc := next_pc }
      else if instr.funct = MIPS.FUNCT_SLT then
        { s with
          registers := store s.registers instr.rd
            (ALU.execute (s.registers instr.rs) (s.registers instr.rt) ALU.Operation.SLT).value,
          pc := next_pc }
      else if instr.funct = MIPS.FUNCT_JR then
        { s with pc := s.registers instr.rs }
      else
        { s with pc := next_pc }
    else if instr.type = "I" then
      let imm_extended := signExtend16 instr.immediate
      if instr.opcode = MIPS.OPCODE_ADDI then
        { s with
          registers := store s.registers instr.rt (u32 (s.registers instr.rs + imm_extended)),
          pc := next_pc }
      else if instr.opcode = MIPS.OPCODE_LW then
        let addr := u32 (s.registers instr.rs + imm_extended)
        if isValidAddress addr then
          { s with registers := store s.registers instr.rt (loadWord s.memory addr), pc := next_pc }
        else
          { s with pc := next_pc }
      else if instr.opcode = MIPS.OPCODE_SW then
        let addr := u32 (s.registers instr.rs + imm_extended)
        if isValidAddress addr then
          { s with memory := storeWord s.memory addr (s.registers instr.rt), pc := next_pc }
        else
          { s with pc := next_pc }
      else if instr.opcode = MIPS.OPCODE_BEQ then
        let branch_taken := s.registers instr.rs == s.registers instr.rt
        let target := if branch_taken then u32 (s.pc + 4 + (imm_extended <<< 2)) else next_pc
        let s := recordBranch s branch_taken
        { s with pc := target }
      else if instr.opcode = MIPS.OPCODE_BNE then
        let branch_taken := s.registers instr.rs != s.registers instr.rt
        let target := if branch_taken then u32 (s.pc + 4 + (imm_extended <<< 2)) else next_pc
        let s := recordBranch s branch_taken
        { s with pc := target }
      else
        { s with pc := next_pc }
    else if instr.type = "J" then
      if instr.opcode = MIPS.OPCODE_J then
        { s with pc := (s.pc &&& 0xF0000000) ||| (instr.jump_addr <<< 2) }
      else if instr.opcode = MIPS.OPCODE_JAL then
        { s with
          registers := store s.registers 31 (u32 (s.pc + 8)),
          pc := (s.pc &&& 0xF0000000) ||| (instr.jump_addr <<< 2) }
      else
        { s with pc := next_pc }
    else
      { s with pc := next_pc }
  (true, s)

/-- `MIPSSimulator::detectHazards`. -/
def detectHazards (s : State) : Bool :=
  let st1 := s.pipeline_stages.getD 1 PStage.empty
  let st2 := s.pipeline_stages.getD 2 PStage.empty
  if !st1.valid || !st2.valid then false
  else
    let id_instr := decodeInstruction st1.instruction
    let ex_instr := decodeInstruction st2.instruction
    if ex_instr.type = "R" ∨ (ex_instr.type = "I" ∧ ex_instr.opcode = MIPS.OPCODE_LW) then
      let dest_reg := if ex_instr.type = "R" then ex_instr.rd else ex_instr.rt
      dest_reg != 0 && (dest_reg == id_instr.rs || dest_reg == id_instr.rt)
    else false

/-- `MIPSSimulator::handleHazards`: sets the stall flag on stages 1 to 4. -/
def handleHazards (s : State) : State :=
  let ps := s.pipeline_stages
  { s with pipeline_stages :=
      [ps.getD 0 PStage.empty,
       { ps.getD 1 PStage.empty with stall := true },
       { ps.getD 2 PStage.empty with stall := true },
       { ps.getD 3 PStage.empty with stall := true },
       { ps.getD 4 PStage.empty with stall := true }] }

/-- `MIPSSimulator::advancePipeline`.  The backwards copy loop
`for (i = 4; i >= 1; i--) stages[i] = stages[i-1]` shifts the stage vector. -/
def advancePipeline (s : State) : State :=
  if detectHazards s then handleHazards s
  else
    let ps := s.pipeline_stages
    let shifted := [ps.getD 0 PStage.empty, ps.getD 0 PStage.empty, ps.getD 1 PStage.empty,
                    ps.getD 2 PStage.empty, ps.getD 3 PStage.empty]
    if !s.halted && isValidAddress s.pc then
      let instruction := loadWord s.memory s.pc
      { s with
        pipeline_stages :=
          [{ shifted.getD 0 PStage.empty with instruction := instruction, pc := s.pc, valid := true },
           shifted.getD 1 PStage.empty, shifted.getD 2 PStage.empty,
           shifted.getD 3 PStage.empty, shifted.getD 4 PStage.empty],
        pc := u32 (s.pc + 4) }
    else
      { s with pipeline_stages :=
          [{ shifted.getD 0 PStage.empty with valid := false },
           shifted.getD 1 PStage.empty, shifted.getD 2 PStage.empty,
           shifted.getD 3 PStage.empty, shifted.getD 4 PStage.empty] }

/-- `MIPSSimulator::step`. -/
def step (s : State) : Bool × State :=
  if s.halted then (false, s)
  else if s.pipeline_enabled then
    let s := advancePipeline s
    let s := { s with registers := store s.registers 0 0 }
    (!s.halted, s)
  else if !isValidAddress s.pc then
    (false, { s with halted := true })
  else
    let instruction := loadWord s.memory s.pc
    let instr := decodeInstruction instruction
    let r := executeInstruction s instr
    if !r.1 then (false, { r.2 with halted := true })
    else
      let s := { r.2 with registers := store r.2.registers 0 0 }
      (!s.halted, s)

/-- Iterated stepping of the simulator (discarding the returned flag). -/
def stepN : Nat → State → State
  | 0, s => s
  | n + 1, s => stepN n (step s).2

/-- `MIPSSimulator::reset`.  Memory contents are not cleared. -/
def reset (s : State) : State :=
  let s := { s with registers := fun _ => 0, pc := 0, halted := false }
  let s := if s.pipeline_enabled then initializePipeline s else s
  { s with total_branches := 0, correct_predictions := 0, incorrect_predictions := 0 }

/-- `MIPSSimulator::getRegister` (the index is a C `int`). -/
def getRegister (s : State) (reg : Int) : Nat :=
  if 0 ≤ reg ∧ reg < 32 then s.registers reg.toNat else 0

/-- `MIPSSimulator::setRegister`. -/
def setRegister (s : State) (reg : Int) (value : Nat) : State :=
  if 1 ≤ reg ∧ reg < 32 then { s with registers := store s.registers reg.toNat value } else s

/-- `MIPSSimulator::getMemory`. -/
def getMemory (s : State) (address : Nat) : Nat :=
  if isValidAddress address then loadWord s.memory address else 0

/-- `MIPSSimulator::setMemory`. -/
def setMemory (s : State) (address value : Nat) : State :=
  if isValidAddress address then { s with memory := storeWord s.memory address value } else s

/-- `MIPSSimulator::enablePipeline`. -/
def enablePipeline (s : State) (enable : Bool) : State :=
  let s := { s with pipeline_enabled := enable }
  if enable then initializePipeline s else s

/-- Hexadecimal value of one character, as accepted by `std::stoul` base 16. -/
def hexDigit (c : Char) : Option Nat :=
  if '0' ≤ c ∧ c ≤ '9' then some (c.toNat - '0'.toNat)
  else if 'a' ≤ c ∧ c ≤ 'f' then some (c.toNat - 'a'.toNat + 10)
  else if 'A' ≤ c ∧ c ≤ 'F' then some (c.toNat - 'A'.toNat + 10)
  else none

/-- Greedy hexadecimal scan of `std::stoul`: accumulate digits, stop at the
first non-digit character. -/
def hexScan (acc : Nat) : List Char → Nat
  | [] => acc
  | c :: rest =>
    match hexDigit c with
    | some d => hexScan (acc * 16 + d) rest
    | none => acc

/-- Model of `std::stoul(line, nullptr, 16)`: skip leading blanks, accept an
optional `0x`/`0X` mark when followed by a digit, require at least one
hexadecimal digit, and return `none` where the C++ call would throw. -/
def stoulHex (cs : List Char) : Option Nat :=
  let cs := cs.dropWhile (fun c => c = ' ' ∨ c = '\t')
  let cs :=
    match cs with
    | '0' :: 'x' :: d :: rest => if (hexDigit d).isSome then d :: rest else '0' :: 'x' :: d :: rest
    | '0' :: 'X' :: d :: rest => if (hexDigit d).isSome then d :: rest else '0' :: 'X' :: d :: rest
    | other => other
  match cs with
  | [] => none
  | c :: _ => if (hexDigit c).isSome then some (hexScan 0 cs) else none

/-- The line loop of `MIPSSimulator::loadProgramFromString`; returns `false`
together with the memory as written so far when a line fails to parse. -/
def loadProgramLoop (memory : Nat → Nat) (address : Nat) :
    List (List Char) → Bool × (Nat → Nat)
  | [] => (true, memory)
  | line :: rest =>
    if line = [] ∨ line.headD ' ' = '#' then loadProgramLoop memory address rest
    else
      match stoulHex line with
      | none => (false, memory)
      | some w =>
        let instruction := u32 w
        if address + 3 < memorySize then
          loadProgramLoop (storeWord memory address instruction) (address + 4) rest
        else
          loadProgramLoop memory address rest

/-- `MIPSSimulator::loadProgramFromString` (the input is the list of lines of
the program string).  `reset` runs only on the success path. -/
def loadProgramFromString (s : State) (lines : List (List Char)) : Bool × State :=
  let r := loadProgramLoop s.memory 0 lines
  if r.1 then (true, reset { s with memory := r.2 })
  else (false, { s with memory := r.2 })

end MIPSSimulator

/-! ## The `BranchPredictor.hpp` predictor family -/

/-- `enum class PredictorType` of `BranchPredictor.hpp`. -/
inductive PredictorType where
  | STATIC_NOT_TAKEN | STATIC_TAKEN | STATIC_BTFN
  | BIMODAL_1BIT | BIMODAL_2BIT | GSHARE | LOCAL_HISTORY | TOURNAMENT
deriving DecidableEq

/-- `struct BranchStats`; `accuracy` (a C `double`) is modelled as a rational. -/
structure BranchStats where
  totalBranches : Nat
  correctPredictions : Nat
  mispredictions : Nat
  accuracy : ℚ

def BranchStats.init : BranchStats :=
  { totalBranches := 0, correctPredictions := 0, mispredictions := 0, accuracy := 0 }

/-- The statistics block repeated verbatim in every `update` of the family:
`totalBranches++`, one of the two outcome counters `++`, then
`accuracy = (double)correctPredictions / totalBranches`. -/
def BranchStats.record (st : BranchStats) (correct : Bool) : BranchStats :=
  let st := { st with totalBranches := st.totalBranches + 1 }
  let st :=
    if correct then { st with correctPredictions := st.correctPredictions + 1 }
    else { st with mispredictions := st.mispredictions + 1 }
  { st with accuracy := (st.correctPredictions : ℚ) / (st.totalBranches : ℚ) }

/-- `class StaticPredictor`. -/
structure StaticPredictor where
  typ : PredictorType
  prediction : Bool
  stats : BranchStats

def StaticPredictor.create (t : PredictorType) (pred : Bool) : StaticPredictor :=
  { typ := t, prediction := pred, stats := BranchStats.init }

def StaticPredictor.predict (s : StaticPredictor) (_pc _targetAddress : Nat) : Bool :=
  s.prediction

def StaticPredictor.update (s : StaticPredictor) (pc : Nat) (taken : Bool) (targetAddress : Nat) :
    StaticPredictor :=
  { s with stats := s.stats.record (s.predict pc targetAddress == taken) }

/-- `class BTFNPredictor`. -/
structure BTFNPredictor where
  stats : BranchStats

def BTFNPredictor.create : BTFNPredictor := { stats := BranchStats.init }

def BTFNPredictor.predict (_s : BTFNPredictor) (pc targetAddress : Nat) : Bool :=
  decide (targetAddress < pc)

def BTFNPredictor.update (s : BTFNPredictor) (pc : Nat) (taken : Bool) (targetAddress : Nat) :
    BTFNPredictor :=
  { s with stats := s.stats.record (s.predict pc targetAddress == taken) }

/-- `class BimodalPredictor` (1-bit or 2-bit according to `twoBit`). -/
structure BimodalPredictor where
  table : Nat → Nat
  indexBits : Nat
  tableSize : Nat
  twoBit : Bool
  stats : BranchStats

/-- The `BimodalPredictor` constructor: the table is filled with 1 (weakly not
taken) in 2-bit mode and 0 in 1-bit mode. -/
def BimodalPredictor.create (t : PredictorType) (bits : Nat) : BimodalPredictor :=
  { table := fun _ => if t = PredictorType.BIMODAL_2BIT then 1 else 0
    indexBits := bits
    tableSize := 1 <<< bits
    twoBit := t = PredictorType.BIMODAL_2BIT
    stats := BranchStats.init }

def BimodalPredictor.getIndex (s : BimodalPredictor) (pc : Nat) : Nat :=
  (pc >>> 2) &&& ((1 <<< s.indexBits) - 1)

def BimodalPredictor.predict (s : BimodalPredictor) (pc _targetAddress : Nat) : Bool :=
  let index := s.getIndex pc
  if s.twoBit then decide (2 ≤ s.table index) else decide (s.table index = 1)

def BimodalPredictor.update (s : BimodalPredictor) (pc : Nat) (taken : Bool) (targetAddress : Nat) :
    BimodalPredictor :=
  let index := s.getIndex pc
  let stats := s.stats.record (s.predict pc targetAddress == taken)
  let table :=
    if s.twoBit then
      if taken ∧ s.table index < 3 then store s.table index (s.table index + 1)
      else if ¬ taken ∧ 0 < s.table index then store s.table index (s.table index - 1)
      else s.table
    else store s.table index (if taken then 1 else 0)
  { s with stats := stats, table := table }

/-- `class GsharePredictor`. -/
structure GsharePredictor where
  table : Nat → Nat
  globalHistory : Nat
  historyBits : Nat
  indexBits : Nat
  tableSize : Nat
  stats : BranchStats

def GsharePredictor.create (histBits idxBits : Nat) : GsharePredictor :=
  { table := fun _ => 1
    globalHistory := 0
    historyBits := histBits
    indexBits := idxBits
    tableSize := 1 <<< idxBits
    stats := BranchStats.init }

def GsharePredictor.getIndex (s : GsharePredictor) (pc : Nat) : Nat :=
  let pcBits := (pc >>> 2) &&& ((1 <<< s.indexBits) - 1)
  let historyMask := (1 <<< min s.historyBits s.indexBits) - 1
  pcBits ^^^ (s.globalHistory &&& historyMask)

def GsharePredictor.predict (s : GsharePredictor) (pc _targetAddress : Nat) : Bool :=
  decide (2 ≤ s.table (s.getIndex pc))

def GsharePredictor.update (s : GsharePredictor) (pc : Nat) (taken : Bool) (targetAddress : Nat) :
    GsharePredictor :=
  let index := s.getIndex pc
  let stats := s.stats.record (s.predict pc targetAddress == taken)
  let table :=
    if taken ∧ s.table index < 3 then store s.table index (s.table index + 1)
    else if ¬ taken ∧ 0 < s.table index then store s.table index (s.table index - 1)
    else s.table
  let globalHistory := ((s.globalHistory <<< 1) ||| (if taken then 1 else 0)) &&& ((1 <<< s.historyBits) - 1)
  { s with stats := stats, table := table, globalHistory := globalHistory }

/-- `class LocalHistoryPredictor`. -/
structure LocalHistoryPredictor where
  localHistoryTable : Nat → Nat
  patternHistoryTable : Nat → Nat
  localHistoryBits : Nat
  patternHistoryBits : Nat
  localTableSize : Nat
  patternTableSize : Nat
  stats : BranchStats

def LocalHistoryPredictor.create (localBits patternBits : Nat) : LocalHistoryPredictor :=
  { localHistoryTable := fun _ => 0
    patternHistoryTable := fun _ => 1
    localHistoryBits := localBits
    patternHistoryBits := patternBits
    localTableSize := 1 <<< localBits
    patternTableSize := 1 <<< patternBits
    stats := BranchStats.init }

def LocalHistoryPredictor.getLocalIndex (s : LocalHistoryPredictor) (pc : Nat) : Nat :=
  (pc >>> 2) &&& ((1 <<< s.localHistoryBits) - 1)

def LocalHistoryPredictor.getPatternIndex (s : LocalHistoryPredictor) (localHistory : Nat) : Nat :=
  localHistory &&& ((1 <<< s.patternHistoryBits) - 1)

def LocalHistoryPredictor.predict (s : LocalHistoryPredictor) (pc _targetAddress : Nat) : Bool :=
  let localIndex := s.getLocalIndex pc
  let localHistory := s.localHistoryTable localIndex
  let patternIndex := s.getPatternIndex localHistory
  decide (2 ≤ s.patternHistoryTable patternIndex)

def LocalHistoryPredictor.update (s : LocalHistoryPredictor) (pc : Nat) (taken : Bool)
    (targetAddress : Nat) : LocalHistoryPredictor :=
  let localIndex := s.getLocalIndex pc
  let localHistory := s.localHistoryTable localIndex
  let patternIndex := s.getPatternIndex localHistory
  let stats := s.stats.record (s.predict pc targetAddress == taken)
  let patternHistoryTable :=
    if taken ∧ s.patternHistoryTable patternIndex < 3 then
      store s.patternHistoryTable patternIndex (s.patternHistoryTable patternIndex + 1)
    else if ¬ taken ∧ 0 < s.patternHistoryTable patternIndex then
      store s.patternHistoryTable patternIndex (s.patternHistoryTable patternIndex - 1)
    else s.patternHistoryTable
  let localHistoryTable :=
    store s.localHistoryTable localIndex
      (((localHistory <<< 1) ||| (if taken then 1 else 0)) &&& ((1 <<< s.patternHistoryBits) - 1))
  { s with stats := stats, patternHistoryTable := patternHistoryTable,
           localHistoryTable := localHistoryTable }

/-- `class TournamentPredictor`: owns one gshare and one local-history
predictor by composition. -/
structure TournamentPredictor where
  globalPredictor : GsharePredictor
  localPredictor : LocalHistoryPredictor
  choiceTable : Nat → Nat
  choiceTableSize : Nat
  stats : BranchStats

def TournamentPredictor.create (choiceBits : Nat) : TournamentPredictor :=
  { globalPredictor := GsharePredictor.create 12 12
    localPredictor := LocalHistoryPredictor.create 10 10
    choiceTable := fun _ => 1
    choiceTableSize := 1 <<< choiceBits
    stats := BranchStats.init }

def TournamentPredictor.getChoiceIndex (s : TournamentPredictor) (pc : Nat) : Nat :=
  (pc >>> 2) &&& (s.choiceTableSize - 1)

def TournamentPredictor.predict (s : TournamentPredictor) (pc targetAddress : Nat) : Bool :=
  let choiceIndex := s.getChoiceIndex pc
  if 2 ≤ s.choiceTable choiceIndex then s.globalPredictor.predict pc targetAddress
  else s.localPredictor.predict pc targetAddress

def TournamentPredictor.update (s : TournamentPredictor) (pc : Nat) (taken : Bool)
    (targetAddress : Nat) : TournamentPredictor :=
  let choiceIndex := s.getChoiceIndex pc
  let globalPrediction := s.globalPredictor.predict pc targetAddress
  let localPrediction := s.localPredictor.predict pc targetAddress
  let chosenPrediction := s.predict pc targetAddress
  let stats := s.stats.record (chosenPrediction == taken)
  let choiceTable :=
    if globalPrediction = taken ∧ localPrediction ≠ taken then
      if s.choiceTable choiceIndex < 3 then store s.choiceTable choiceIndex (s.choiceTable choiceIndex + 1)
      else s.choiceTable
    else if localPrediction = taken ∧ globalPrediction ≠ taken then
      if 0 < s.choiceTable choiceIndex then store s.choiceTable choiceIndex (s.choiceTable choiceIndex - 1)
      else s.choiceTable
    else s.choiceTable
  { s with stats := stats, choiceTable := choiceTable,
           globalPredictor := s.globalPredictor.update pc taken targetAddress,
           localPredictor := s.localPredictor.update pc taken targetAddress }

/-- One call of the predictor capability set.  For the `BranchPredictor.hpp`
family a `predict` call performs no member write, so running it leaves the
state unchanged. -/
inductive PredCall where
  | query (pc targetAddress : Nat)
  | observe (pc : Nat) (taken : Bool) (targetAddress : Nat)

/-- Replay of a sequence of `predict`/`update` calls against a predictor whose
update function is `upd` and whose `predict` has no state effect. -/
def runCalls {σ : Type} (upd : σ → Nat → Bool → Nat → σ) (s : σ) : List PredCall → σ
  | [] => s
  | PredCall.query _ _ :: rest => runCalls upd s rest
  | PredCall.observe pc b t :: rest => runCalls upd (upd s pc b t) rest

/-! ## The `branch_predictor.hpp` / `branch_predictor.cpp` predictor (a
separate class, also named `BranchPredictor`, used by the `MIPSSimulator`
project; its `predict` mutates the object) -/

inductive BranchPredictor.PredictorType where
  | STATIC_NOT_TAKEN | STATIC_TAKEN | DYNAMIC_1BIT | DYNAMIC_2BIT
deriving DecidableEq

/-- `BranchPredictor::PredictionStats` (`accuracy` is the percentage). -/
structure BranchPredictor.PredictionStats where
  total_predictions : Nat
  correct_predictions : Nat
  incorrect_predictions : Nat
  accuracy : ℚ

/-- The `branch_predictor.cpp` class:  `branch_history_table` is a
`std::map<uint32_t, uint8_t>` modelled as a partial map. -/
structure BranchPredictor where
  predictor_type : BranchPredictor.PredictorType
  branch_history_table : Nat → Option Nat
  stats : BranchPredictor.PredictionStats

/-- The constructor (which calls `reset`). -/
def BranchPredictor.create (t : BranchPredictor.PredictorType) : BranchPredictor :=
  { predictor_type := t
    branch_history_table := fun _ => none
    stats := ⟨0, 0, 0, 0⟩ }

/-- `BranchPredictor::predict` of `branch_predictor.cpp`.  It increments
`total_predictions` and, for the dynamic kinds, inserts a default entry
into the branch history table for an unseen pc. -/
def BranchPredictor.predict (s : BranchPredictor) (pc : Nat) : Bool × BranchPredictor :=
  let s := { s with stats := { s.stats with total_predictions := s.stats.total_predictions + 1 } }
  match s.predictor_type with
  | .STATIC_NOT_TAKEN => (false, s)
  | .STATIC_TAKEN => (true, s)
  | .DYNAMIC_1BIT =>
    let s :=
      if (s.branch_history_table pc).isNone then
        { s with branch_history_table := store s.branch_history_table pc (some 0) }
      else s
    (decide ((s.branch_history_table pc).getD 0 = 1), s)
  | .DYNAMIC_2BIT =>
    let s :=
      if (s.branch_history_table pc).isNone then
        { s with branch_history_table := store s.branch_history_table pc (some 1) }
      else s
    let state := (s.branch_history_table pc).getD 0
    (decide (state = 2) || decide (state = 3), s)

/-- The four-state transition of the 2-bit scheme in
`BranchPredictor::update` (`0`..`3` are the `State2Bit` values). -/
def BranchPredictor.nextState2Bit (state : Nat) (actual_outcome : Bool) : Nat :=
  if actual_outcome then
    match state with
    | 0 => 1
    | 1 => 2
    | 2 => 3
    | 3 => 3
    | other => other
  else
    match state with
    | 0 => 0
    | 1 => 0
    | 2 => 1
    | 3 => 2
    | other => other

/-- `BranchPredictor::update` of `branch_predictor.cpp`:  recomputes the
predicted outcome from the table, advances the predictor state, then counts
the outcome; `total_predictions` is not touched here. -/
def BranchPredictor.update (s : BranchPredictor) (pc : Nat) (actual_outcome : Bool) :
    BranchPredictor :=
  let po : Bool × BranchPredictor :=
    match s.predictor_type with
    | .STATIC_NOT_TAKEN => (false, s)
    | .STATIC_TAKEN => (true, s)
    | .DYNAMIC_1BIT =>
      let predicted :=
        match s.branch_history_table pc with
        | some v => decide (v = 1)
        | none => false
      (predicted,
       { s with branch_history_table :=
           store s.branch_history_table pc (some (if actual_outcome then 1 else 0)) })
    | .DYNAMIC_2BIT =>
      match s.branch_history_table pc with
      | some state =>
        (decide (state = 2) || decide (state = 3),
         { s with branch_history_table :=
             store s.branch_history_table pc (some (BranchPredictor.nextState2Bit state actual_outcome)) })
      | none =>
        (false,
         { s with branch_history_table :=
             store s.branch_history_table pc (some (if actual_outcome then 2 else 1)) })
  let s := po.2
  let stats : BranchPredictor.PredictionStats :=
    if po.1 == actual_outcome then
      { s.stats with correct_predictions := s.stats.correct_predictions + 1 }
    else
      { s.stats with incorrect_predictions := s.stats.incorrect_predictions + 1 }
  let stats :=
    if 0 < stats.total_predictions then
      { stats with accuracy := (stats.correct_predictions : ℚ) / (stats.total_predictions : ℚ) * 100 }
    else stats
  { s with stats := stats }

/-! ## `Instruction.hpp` / `Instruction.cpp` -/

inductive InstructionType where
  | R_TYPE | I_TYPE | J_TYPE
deriving DecidableEq

inductive InstructionFormat where
  | ADD | SUB | AND | OR | NOR | SLT | SLL | SRL | SRA | SLLV | SRLV | SRAV
  | JR | JALR | MFHI | MFLO | MTHI | MTLO | MULT | MULTU | DIV | DIVU
  | ADDI | ADDIU | ANDI | ORI | XORI | SLTI | SLTIU
  | LW | LH | LB | LBU | LHU | SW | SH | SB
  | BEQ | BNE | BLEZ | BGTZ | BLTZ | BGEZ
  | LUI
  | J | JAL
  | NOP
  | UNKNOWN
deriving DecidableEq

/-- `struct Instruction` of `Instruction.hpp`.  The `valid` member is read by
`HazardDetection.cpp` although `Instruction.hpp` does not declare it; it is
modelled here with the value-initialised default `false`, which no code path
ever sets. -/
structure Instruction where
  machineCode : Nat
  type : InstructionType
  format : InstructionFormat
  rs : Nat
  rt : Nat
  rd : Nat
  shamt : Nat
  funct : Nat
  immediate : Nat
  signedImmediate : Int
  jumpTarget : Nat
  opcode : Nat
  address : Nat
  valid : Bool

/-- The default `Instruction()` constructor. -/
def Instruction.init : Instruction :=
  { machineCode := 0, type := InstructionType.R_TYPE, format := InstructionFormat.NOP
    rs := 0, rt := 0, rd := 0, shamt := 0, funct := 0, immediate := 0
    signedImmediate := 0, jumpTarget := 0, opcode := 0, address := 0, valid := false }

namespace InstructionDecoder

/-- `InstructionDecoder::getInstructionFormat`. -/
def getInstructionFormat (opcode funct : Nat) : InstructionFormat :=
  if opcode = 0 then
    match funct with
    | 0x20 => InstructionFormat.ADD
    | 0x22 => InstructionFormat.SUB
    | 0x24 => InstructionFormat.AND
    | 0x25 => InstructionFormat.OR
    | 0x27 => InstructionFormat.NOR
    | 0x2A => InstructionFormat.SLT
    | 0x00 => InstructionFormat.SLL
    | 0x02 => InstructionFormat.SRL
    | 0x03 => InstructionFormat.SRA
    | 0x08 => InstructionFormat.JR
    | 0x09 => InstructionFormat.JALR
    | _ => InstructionFormat.UNKNOWN
  else
    match opcode with
    | 0x08 => InstructionFormat.ADDI
    | 0x0C => InstructionFormat.ANDI
    | 0x0D => InstructionFormat.ORI
    | 0x0E => InstructionFormat.XORI
    | 0x0A => InstructionFormat.SLTI
    | 0x23 => InstructionFormat.LW
    | 0x21 => InstructionFormat.LH
    | 0x20 => InstructionFormat.LB
    | 0x24 => InstructionFormat.LBU
    | 0x25 => InstructionFormat.LHU
    | 0x2B => InstructionFormat.SW
    | 0x29 => InstructionFormat.SH
    | 0x28 => InstructionFormat.SB
    | 0x04 => InstructionFormat.BEQ
    | 0x05 => InstructionFormat.BNE
    | 0x06 => InstructionFormat.BLEZ
    | 0x07 => InstructionFormat.BGTZ
    | 0x0F => InstructionFormat.LUI
    | 0x02 => InstructionFormat.J
    | 0x03 => InstructionFormat.JAL
    | _ => InstructionFormat.UNKNOWN

/-- `InstructionDecoder::decode`, i.e. the `Instruction(machineCode, address)`
constructor followed by `Instruction::decode()`.  Fields not assigned by the
decode path keep the value-initialised defaults. -/
def decode (machineCode address : Nat) : Instruction :=
  let opcode := (machineCode >>> 26) &&& 0x3F
  if opcode = 0 then
    { Instruction.init with
      machineCode := machineCode, address := address, opcode := opcode
      type := InstructionType.R_TYPE
      rs := (machineCode >>> 21) &&& 0x1F
      rt := (machineCode >>> 16) &&& 0x1F
      rd := (machineCode >>> 11) &&& 0x1F
      shamt := (machineCode >>> 6) &&& 0x1F
      funct := machineCode &&& 0x3F
      format := getInstructionFormat opcode (machineCode &&& 0x3F) }
  else if opcode = 2 ∨ opcode = 3 then
    { Instruction.init with
      machineCode := machineCode, address := address, opcode := opcode
      type := InstructionType.J_TYPE
      jumpTarget := machineCode &&& 0x3FFFFFF
      format := if opcode = 2 then InstructionFormat.J else InstructionFormat.JAL }
  else
    { Instruction.init with
      machineCode := machineCode, address := address, opcode := opcode
      type := InstructionType.I_TYPE
      rs := (machineCode >>> 21) &&& 0x1F
      rt := (machineCode >>> 16) &&& 0x1F
      immediate := machineCode &&& 0xFFFF
      signedImmediate := sext16 (machineCode &&& 0xFFFF)
      format := getInstructionFormat opcode 0 }

end InstructionDecoder

def Instruction.isBranch (i : Instruction) : Bool :=
  i.format == InstructionFormat.BEQ || i.format == InstructionFormat.BNE ||
  i.format == InstructionFormat.BLEZ || i.format == InstructionFormat.BGTZ ||
  i.format == InstructionFormat.BLTZ || i.format == InstructionFormat.BGEZ

def Instruction.isJump (i : Instruction) : Bool :=
  i.format == InstructionFormat.J || i.format == InstructionFormat.JAL ||
  i.format == InstructionFormat.JR || i.format == InstructionFormat.JALR

def Instruction.isLoad (i : Instruction) : Bool :=
  i.format == InstructionFormat.LW || i.format == InstructionFormat.LH ||
  i.format == InstructionFormat.LB || i.format == InstructionFormat.LBU ||
  i.format == InstructionFormat.LHU

def Instruction.isStore (i : Instruction) : Bool :=
  i.format == InstructionFormat.SW || i.format == InstructionFormat.SH ||
  i.format == InstructionFormat.SB

def Instruction.usesRS (i : Instruction) : Bool :=
  i.type == InstructionType.I_TYPE ||
  (i.type == InstructionType.R_TYPE && i.format != InstructionFormat.NOP)

def Instruction.usesRT (i : Instruction) : Bool :=
  (i.type == InstructionType.R_TYPE && i.format != InstructionFormat.JR) ||
  (i.type == InstructionType.I_TYPE && !i.isLoad && i.format != InstructionFormat.LUI)

def Instruction.writesRD (i : Instruction) : Bool :=
  i.type == InstructionType.R_TYPE &&
  i.format != InstructionFormat.JR && i.format != InstructionFormat.NOP

def Instruction.writesRT (i : Instruction) : Bool :=
  i.type == InstructionType.I_TYPE &&
  (i.isLoad || i.format == InstructionFormat.ADDI ||
   i.format == InstructionFormat.ANDI || i.format == InstructionFormat.ORI ||
   i.format == InstructionFormat.LUI)

/-! ## `HazardDetection.hpp` / `HazardDetection.cpp` -/

inductive HazardType where
  | NONE | DATA_HAZARD_RAW | DATA_HAZARD_WAR | DATA_HAZARD_WAW
  | CONTROL_HAZARD | STRUCTURAL_HAZARD
deriving DecidableEq

structure ForwardingPath where
  enable : Bool
  sourceStage : Nat
  targetStage : Nat
  reg : Nat
  value : Nat

structure HazardDetection where
  forwardingPaths : List ForwardingPath
  dataHazards : Nat
  controlHazards : Nat
  structuralHazards : Nat
  forwardingEvents : Nat
  stallsInserted : Nat

def HazardDetection.create : HazardDetection := ⟨[], 0, 0, 0, 0, 0⟩

/-- `HazardDetection::detectDataHazard`. -/
def HazardDetection.detectDataHazard (current previous : Instruction) : Bool :=
  if !previous.valid then false
  else if previous.writesRD || previous.writesRT then
    let writeReg := if previous.writesRD then previous.rd else previous.rt
    (current.usesRS && current.rs == writeReg) || (current.usesRT && current.rt == writeReg)
  else false

/-- `HazardDetection::detectControlHazard`. -/
def HazardDetection.detectControlHazard (instruction : Instruction) : Bool :=
  instruction.isBranch || instruction.isJump

/-- `HazardDetection::detectHazard` (it also advances the hazard counters). -/
def HazardDetection.detectHazard (h : HazardDetection) (current inEX inMEM inWB : Instruction) :
    HazardType × HazardDetection :=
  if HazardDetection.detectDataHazard current inEX ||
     HazardDetection.detectDataHazard current inMEM ||
     HazardDetection.detectDataHazard current inWB then
    (HazardType.DATA_HAZARD_RAW, { h with dataHazards := h.dataHazards + 1 })
  else if HazardDetection.detectControlHazard current then
    (HazardType.CONTROL_HAZARD, { h with controlHazards := h.controlHazards + 1 })
  else (HazardType.NONE, h)

/-- `HazardDetection::setupForwarding` (a `push_back` on the path list). -/
def HazardDetection.setupForwarding (h : HazardDetection) (reg sourceStage value : Nat) :
    HazardDetection :=
  { h with forwardingPaths :=
      h.forwardingPaths ++ [{ enable := true, sourceStage := sourceStage, targetStage := 2,
                              reg := reg, value := value }] }

/-- The scan loop of `HazardDetection::getForwardedValue`. -/
def HazardDetection.findForward (reg defaultValue : Nat) : List ForwardingPath → Nat
  | [] => defaultValue
  | p :: rest =>
    if p.enable && p.reg == reg then p.value
    else HazardDetection.findForward reg defaultValue rest

/-- `HazardDetection::getForwardedValue`. -/
def HazardDetection.getForwardedValue (h : HazardDetection) (reg defaultValue : Nat) : Nat :=
  HazardDetection.findForward reg defaultValue h.forwardingPaths

/-- `HazardDetection::detectLoadUseHazard`. -/
def HazardDetection.detectLoadUseHazard (load useInstr : Instruction) : Bool :=
  if !load.isLoad then false
  else
    let loadReg := load.rt
    (useInstr.usesRS && useInstr.rs == loadReg) || (useInstr.usesRT && useInstr.rt == loadReg)

/-- `HazardDetection::shouldStall` (counts the inserted stall). -/
def HazardDetection.shouldStall (h : HazardDetection) (current inEX _inMEM : Instruction) :
    Bool × HazardDetection :=
  if HazardDetection.detectLoadUseHazard inEX current then
    (true, { h with stallsInserted := h.stallsInserted + 1 })
  else (false, h)

/-- `HazardDetection::shouldFlush`. -/
def HazardDetection.shouldFlush (branch : Instruction) : Bool :=
  branch.isBranch || branch.isJump

/-! ## `Pipeline.hpp` / `Pipeline.cpp` -/

/-- A `std::vector<uint8_t>`: its size together with its contents, the latter
modelled as a total function (entries beyond `size` stand for whatever an
out-of-bounds access would touch). -/
structure ByteVec where
  size : Nat
  bytes : Nat → Nat

/-- `struct PipelineStage` of `Pipeline.hpp`.  The constructor initialises only
the boolean members; the numeric ones are modelled with value 0. -/
structure PipelineStage where
  valid : Bool
  instruction : Instruction
  pc : Nat
  aluResult : Nat
  memoryData : Nat
  writeData : Nat
  writeReg : Nat
  regWrite : Bool
  memRead : Bool
  memWrite : Bool
  branch : Bool
  jump : Bool

def PipelineStage.init : PipelineStage :=
  { valid := false, instruction := Instruction.init, pc := 0, aluResult := 0
    memoryData := 0, writeData := 0, writeReg := 0
    regWrite := false, memRead := false, memWrite := false, branch := false, jump := false }

structure Pipeline where
  IF_ID : PipelineStage
  ID_EX : PipelineStage
  EX_MEM : PipelineStage
  MEM_WB : PipelineStage
  hazardUnit : HazardDetection
  stall : Bool
  flush : Bool
  stallCycles : Nat
  flushCycles : Nat

def Pipeline.create : Pipeline :=
  { IF_ID := PipelineStage.init, ID_EX := PipelineStage.init
    EX_MEM := PipelineStage.init, MEM_WB := PipelineStage.init
    hazardUnit := HazardDetection.create
    stall := false, flush := false, stallCycles := 0, flushCycles := 0 }

/-- `Pipeline::getMemoryWord`.  The guard `address + 3 < memory.size()` adds in
`uint32_t`, so the sum wraps modulo 2^32; the byte indices wrap likewise. -/
def Pipeline.getMemoryWord (memory : ByteVec) (address : Nat) : Nat :=
  if u32 (address + 3) < memory.size then
    (memory.bytes (u32 address) <<< 24) |||
    (memory.bytes (u32 (address + 1)) <<< 16) |||
    (memory.bytes (u32 (address + 2)) <<< 8) |||
    memory.bytes (u32 (address + 3))
  else 0

/-- `Pipeline::setMemoryWord`, with the same wrapping guard and indices. -/
def Pipeline.setMemoryWord (memory : ByteVec) (address value : Nat) : ByteVec :=
  if u32 (address + 3) < memory.size then
    let bytes :=
      store (store (store (store memory.bytes (u32 address) ((value >>> 24) &&& 0xFF))
        (u32 (address + 1)) ((value >>> 16) &&& 0xFF))
        (u32 (address + 2)) ((value >>> 8) &&& 0xFF))
        (u32 (address + 3)) (value &&& 0xFF)
    { memory with bytes := bytes }
  else memory

/-- `Pipeline::performALU`. -/
def performALU (op1 op2 : Nat) (format : InstructionFormat) : Nat :=
  match format with
  | .ADD | .ADDI | .LW | .SW => u32 (op1 + op2)
  | .SUB => u32sub op1 op2
  | .AND | .ANDI => op1 &&& op2
  | .OR | .ORI => op1 ||| op2
  | .NOR => u32not (op1 ||| op2)
  | .SLT | .SLTI => if toInt32 op1 < toInt32 op2 then 1 else 0
  | _ => 0

/-- `Pipeline::stallPipeline`. -/
def Pipeline.stallPipeline (p : Pipeline) : Pipeline := { p with stall := true }

/-- `Pipeline::flushPipeline`: invalidates the IF/ID and ID/EX latches. -/
def Pipeline.flushPipeline (p : Pipeline) : Pipeline :=
  { p with IF_ID := { p.IF_ID with valid := false },
           ID_EX := { p.ID_EX with valid := false },
           flush := true }

/-- `Pipeline::executeIF`. -/
def Pipeline.executeIF (p : Pipeline) (instruction : Instruction) (pc : Nat) : Pipeline :=
  if !p.stall then
    { p with IF_ID := { p.IF_ID with valid := true, instruction := instruction, pc := pc } }
  else p

/-- `Pipeline::executeID`.  The register file argument is carried only because
the C++ signature takes it. -/
def Pipeline.executeID (p : Pipeline) (_registers : Nat → Nat) : Pipeline :=
  if p.flush then { p with ID_EX := { p.ID_EX with valid := false } }
  else if p.IF_ID.valid then
    let st := { p.IF_ID with valid := true }
    let instr := st.instruction
    let st := { st with
      regWrite := instr.writesRD || instr.writesRT
      memRead := instr.isLoad
      memWrite := instr.isStore
      branch := instr.isBranch
      jump := instr.isJump }
    let st :=
      if instr.writesRD then { st with writeReg := instr.rd }
      else if instr.writesRT then { st with writeReg := instr.rt }
      else st
    { p with ID_EX := st, IF_ID := { p.IF_ID with valid := false } }
  else p

/-- `Pipeline::executeEX`.  The body reads the architectural register file
(a `registers` variable supplied by the surrounding simulator), so the
register file is passed explicitly here. -/
def Pipeline.executeEX (p : Pipeline) (registers : Nat → Nat) : Pipeline :=
  if p.ID_EX.valid then
    let st := { p.ID_EX with valid := true }
    let instr := st.instruction
    let op1 := registers instr.rs
    let op2 :=
      if instr.type == InstructionType.I_TYPE then toUInt32 instr.signedImmediate
      else registers instr.rt
    let op1 := p.hazardUnit.getForwardedValue instr.rs op1
    let op2 :=
      if instr.type == InstructionType.R_TYPE then p.hazardUnit.getForwardedValue instr.rt op2
      else op2
    let st := { st with aluResult := performALU op1 op2 instr.format }
    let taken :=
      if instr.isBranch then
        match instr.format with
        | InstructionFormat.BEQ => op1 == op2
        | InstructionFormat.BNE => op1 != op2
        | _ => false
      else false
    let fl := if taken then true else p.flush
    { p with EX_MEM := st, ID_EX := { p.ID_EX with valid := false }, flush := fl }
  else p

/-- `Pipeline::executeMEM` (the store path reads `registers[instr.rt]`, so the
register file is passed explicitly, as in `executeEX`). -/
def Pipeline.executeMEM (p : Pipeline) (registers : Nat → Nat) (memory : ByteVec) :
    Pipeline × ByteVec :=
  if p.EX_MEM.valid then
    let st := { p.EX_MEM with valid := true }
    let instr := st.instruction
    if instr.isLoad then
      let address := p.EX_MEM.aluResult
      let md := Pipeline.getMemoryWord memory address
      ({ p with MEM_WB := { st with memoryData := md, writeData := md },
                EX_MEM := { p.EX_MEM with valid := false } }, memory)
    else if instr.isStore then
      let address := p.EX_MEM.aluResult
      let data := registers instr.rt
      ({ p with MEM_WB := st, EX_MEM := { p.EX_MEM with valid := false } },
       Pipeline.setMemoryWord memory address data)
    else
      ({ p with MEM_WB := { st with writeData := p.EX_MEM.aluResult },
                EX_MEM := { p.EX_MEM with valid := false } }, memory)
  else (p, memory)

/-- `Pipeline::executeWB`: writes back unless the destination is register 0,
and records a forwarding path for the written register. -/
def Pipeline.executeWB (p : Pipeline) (registers : Nat → Nat) : Pipeline × (Nat → Nat) :=
  if p.MEM_WB.valid && p.MEM_WB.regWrite then
    if p.MEM_WB.writeReg ≠ 0 then
      let registers := store registers p.MEM_WB.writeReg p.MEM_WB.writeData
      let hz := p.hazardUnit.setupForwarding p.MEM_WB.writeReg 4 p.MEM_WB.writeData
      ({ p with hazardUnit := hz, MEM_WB := { p.MEM_WB with valid := false } }, registers)
    else
      ({ p with MEM_WB := { p.MEM_WB with valid := false } }, registers)
  else (p, registers)

/-- The stage sequence of `Pipeline::tick`: WB, MEM, EX, ID, IF in that order,
then the `stall`/`flush` flags are cleared. -/
def Pipeline.tickStages (p : Pipeline) (fetchedInstruction : Instruction) (pc : Nat)
    (registers : Nat → Nat) (memory : ByteVec) : Pipeline × (Nat → Nat) × ByteVec :=
  let wb := p.executeWB registers
  let registers := wb.2
  let mem := wb.1.executeMEM registers memory
  let memory := mem.2
  let p := mem.1.executeEX registers
  let p := p.executeID registers
  let p := p.executeIF fetchedInstruction pc
  ({ p with stall := false, flush := false }, registers, memory)

/-- `Pipeline::tick`.  The program counter is received by value, so the caller
never observes a change to it. -/
def Pipeline.tick (p : Pipeline) (fetchedInstruction : Instruction) (pc : Nat)
    (registers : Nat → Nat) (memory : ByteVec) : Pipeline × (Nat → Nat) × ByteVec :=
  let dh := p.hazardUnit.detectHazard fetchedInstruction p.ID_EX.instruction
    p.EX_MEM.instruction p.MEM_WB.instruction
  let hazard := dh.1
  let p := { p with hazardUnit := dh.2 }
  if hazard = HazardType.DATA_HAZARD_RAW then
    let ss := p.hazardUnit.shouldStall fetchedInstruction p.ID_EX.instruction p.EX_MEM.instruction
    let p := { p with hazardUnit := ss.2 }
    if ss.1 then
      let p := p.stallPipeline
      ({ p with stallCycles := p.stallCycles + 1 }, registers, memory)
    else p.tickStages fetchedInstruction pc registers memory
  else if hazard = HazardType.CONTROL_HAZARD then
    if HazardDetection.shouldFlush p.ID_EX.instruction then
      let p := p.flushPipeline
      ({ p with flushCycles := p.flushCycles + 1 }).tickStages fetchedInstruction pc registers memory
    else p.tickStages fetchedInstruction pc registers memory
  else p.tickStages fetchedInstruction pc registers memory

/-! ## The `MIPS` core (`MIPS.hpp` / `MIPS.cpp`) -/

/-- State of a `MIPS` object.  The abstract `branchPredictor` member is unused
by every embedded code path and is omitted. -/
structure MIPS where
  registers : Nat → Nat
  pc : Nat
  hi : Nat
  lo : Nat
  memory : ByteVec
  pipeline : Pipeline
  instructions : List Instruction
  stepMode : Bool
  pipelineEnabled : Bool
  cycleCount : Nat
  instructionCount : Nat

namespace MIPS

/-- The `MIPS` constructor: 1 MiB of memory, `$sp` and `$gp` preset,
`pc = 0x400000`, pipeline enabled. -/
def create : MIPS :=
  { registers := store (store (fun _ => 0) 29 0x7fffeffc) 28 0x10008000
    pc := 0x400000
    hi := 0
    lo := 0
    memory := { size := 0x100000, bytes := fun _ => 0 }
    pipeline := Pipeline.create
    instructions := []
    stepMode := false
    pipelineEnabled := true
    cycleCount := 0
    instructionCount := 0 }

/-- `MIPS::getMemoryWord` (same `uint32_t`-wrapping guard as the pipeline's). -/
def getMemoryWord (s : MIPS) (address : Nat) : Nat :=
  if u32 (address + 3) < s.memory.size then
    (s.memory.bytes (u32 address) <<< 24) |||
    (s.memory.bytes (u32 (address + 1)) <<< 16) |||
    (s.memory.bytes (u32 (address + 2)) <<< 8) |||
    s.memory.bytes (u32 (address + 3))
  else 0

/-- `MIPS::setMemoryWord`. -/
def setMemoryWord (s : MIPS) (address value : Nat) : MIPS :=
  if u32 (address + 3) < s.memory.size then
    let bytes :=
      store (store (store (store s.memory.bytes (u32 address) ((value >>> 24) &&& 0xFF))
        (u32 (address + 1)) ((value >>> 16) &&& 0xFF))
        (u32 (address + 2)) ((value >>> 8) &&& 0xFF))
        (u32 (address + 3)) (value &&& 0xFF)
    { s with memory := { s.memory with bytes := bytes } }
  else s

/-- `MIPS::getMemoryByte`. -/
def getMemoryByte (s : MIPS) (address : Nat) : Nat :=
  if address < s.memory.size then s.memory.bytes address else 0

/-- `MIPS::setMemoryByte`. -/
def setMemoryByte (s : MIPS) (address value : Nat) : MIPS :=
  if address < s.memory.size then
    { s with memory := { s.memory with bytes := store s.memory.bytes address value } }
  else s

/-- `MIPS::getRegister`. -/
def getRegister (s : MIPS) (reg : Int) : Nat :=
  if 0 ≤ reg ∧ reg < 32 then s.registers reg.toNat else 0

/-- `MIPS::setRegister` (`$zero` is read-only). -/
def setRegister (s : MIPS) (reg : Int) (value : Nat) : MIPS :=
  if 0 < reg ∧ reg < 32 then { s with registers := store s.registers reg.toNat value } else s

/-- `MIPS::executeSingleCycle`: the single-cycle interpreter path.  The switch
computes the register, memory and next-pc effect; afterwards register 0 is
forced back to zero and the pc is updated. -/
def executeSingleCycle (s : MIPS) (instr : Instruction) : MIPS :=
  let nextPC := u32 (s.pc + 4)
  let eff : (Nat → Nat) × ByteVec × Nat :=
    match instr.format with
    | .ADD =>
      (store s.registers instr.rd (u32 (s.registers instr.rs + s.registers instr.rt)), s.memory, nextPC)
    | .SUB =>
      (store s.registers instr.rd (u32sub (s.registers instr.rs) (s.registers instr.rt)), s.memory, nextPC)
    | .AND =>
      (store s.registers instr.rd (s.registers instr.rs &&& s.registers instr.rt), s.memory, nextPC)
    | .OR =>
      (store s.registers instr.rd (s.registers instr.rs ||| s.registers instr.rt), s.memory, nextPC)
    | .NOR =>
      (store s.registers instr.rd (u32not (s.registers instr.rs ||| s.registers instr.rt)), s.memory, nextPC)
    | .SLT =>
      (store s.registers instr.rd
        (if toInt32 (s.registers instr.rs) < toInt32 (s.registers instr.rt) then 1 else 0),
       s.memory, nextPC)
    | .ADDI =>
      (store s.registers instr.rt (u32 (s.registers instr.rs + toUInt32 instr.signedImmediate)),
       s.memory, nextPC)
    | .ANDI =>
      (store s.registers instr.rt (s.registers instr.rs &&& instr.immediate), s.memory, nextPC)
    | .ORI =>
      (store s.registers instr.rt (s.registers instr.rs ||| instr.immediate), s.memory, nextPC)
    | .LW =>
      (store s.registers instr.rt
        (s.getMemoryWord (u32 (s.registers instr.rs + toUInt32 instr.signedImmediate))),
       s.memory, nextPC)
    | .SW =>
      (s.registers,
       (s.setMemoryWord (u32 (s.registers instr.rs + toUInt32 instr.signedImmediate))
         (s.registers instr.rt)).memory,
       nextPC)
    | .BEQ =>
      (s.registers, s.memory,
       if s.registers instr.rs == s.registers instr.rt then
         u32 (s.pc + 4 + toUInt32 (instr.signedImmediate * 4))
       else nextPC)
    | .BNE =>
      (s.registers, s.memory,
       if s.registers instr.rs != s.registers instr.rt then
         u32 (s.pc + 4 + toUInt32 (instr.signedImmediate * 4))
       else nextPC)
    | .J => (s.registers, s.memory, (s.pc &&& 0xF0000000) ||| (instr.jumpTarget <<< 2))
    | .JAL =>
      (store s.registers 31 (u32 (s.pc + 8)), s.memory,
       (s.pc &&& 0xF0000000) ||| (instr.jumpTarget <<< 2))
    | .JR => (s.registers, s.memory, s.registers instr.rs)
    | .NOP => (s.registers, s.memory, nextPC)
    | _ => (s.registers, s.memory, nextPC)
  { s with registers := store eff.1 0 0, memory := eff.2.1, pc := eff.2.2 }

/-- `MIPS::step`.  In the pipelined branch the pc is passed to `tick` by value
and never reassigned. -/
def step (s : MIPS) : MIPS :=
  if 0x400000 + s.instructions.length * 4 ≤ s.pc then s
  else
    let instrAddr := s.pc
    let machineCode := s.getMemoryWord instrAddr
    let instr := InstructionDecoder.decode machineCode instrAddr
    let s :=
      if s.pipelineEnabled then
        let t := s.pipeline.tick instr s.pc s.registers s.memory
        { s with pipeline := t.1, registers := t.2.1, memory := t.2.2 }
      else s.executeSingleCycle instr
    { s with cycleCount := s.cycleCount + 1
             instructionCount :=
               if instr.format != InstructionFormat.NOP then s.instructionCount + 1
               else s.instructionCount }

/-- Iterated `MIPS::step`. -/
def stepN : Nat → MIPS → MIPS
  | 0, s => s
  | n + 1, s => stepN n (step s)

end MIPS

/-! ## Concrete inputs used in settling the claims -/

/-- The one-word program `addi $v0, $zero, 5` (`0x20020005`) as a hex line. -/
def addiLine : List Char := ['2', '0', '0', '2', '0', '0', '0', '5']

/-- The `MIPSSimulator` after loading that program (pipeline disabled, as in
the constructor). -/
def simLoaded : MIPSSimulator.State :=
  (MIPSSimulator.loadProgramFromString MIPSSimulator.create [addiLine]).2

/-- The same simulator with the pipeline enabled. -/
def simPiped : MIPSSimulator.State := MIPSSimulator.enablePipeline simLoaded true

/-- The word `beq $t0, $t1, 7` (`0x11090007`) decoded at `0x400000`. -/
def beqInstr : Instruction := InstructionDecoder.decode 0x11090007 0x400000

/-- A `MIPS` core one tick before resolving that branch in EX: the ID/EX latch
holds the `beq`, and `$t0 = 7` makes the comparison succeed. -/
def beqState : MIPS :=
  { MIPS.create with
    registers := store MIPS.create.registers 8 7
    instructions := [beqInstr]
    pipeline := { Pipeline.create with
      ID_EX := { PipelineStage.init with valid := true, instruction := beqInstr, pc := 0x400000 } } }

/-- A fresh static-not-taken predictor of the `branch_predictor.cpp` class. -/
def bp5NT : BranchPredictor :=
  BranchPredictor.create BranchPredictor.PredictorType.STATIC_NOT_TAKEN

/-- A 1 MiB byte vector holding 7 in every cell. -/
def sevenMem : ByteVec := { size := 0x100000, bytes := fun _ => 7 }

/-- A program image whose second line (`zz`) is not a hex token. -/
def badImage : List (List Char) := [['0', '0', '0', '0', '0', '0', '0', '5'], ['z', 'z']]

/-- The statistics identity demanded by the specification: the outcome
counters partition the total, and `accuracy` is their exact quotient once a
branch has been recorded. -/
def statsWellFormed (st : BranchStats) : Prop :=
  st.correctPredictions + st.mispredictions = st.totalBranches ∧
  (0 < st.totalBranches → st.accuracy = (st.correctPredictions : ℚ) / (st.totalBranches : ℚ))

/-! ## Helper lemmas -/

theorem store_self {α : Type} (f : Nat → α) (i : Nat) (v : α) : store f i v i = v := by
  simp [store]

theorem store_other {α : Type} (f : Nat → α) (i : Nat) (v : α) (j : Nat) (h : j ≠ i) :
    store f i v j = f j := by
  simp [store, h]

theorem shiftRight_and_ff (v s : Nat) : (v >>> s) &&& 0xFF = v / 2 ^ s % 2 ^ 8 := by
  have h : (0xFF : Nat) = 2 ^ 8 - 1 := rfl
  rw [h, Nat.and_pow_two_sub_one_eq_mod, Nat.shiftRight_eq_div_pow]

theorem and_ff (v : Nat) : v &&& 0xFF = v % 2 ^ 8 := by
  have h : (0xFF : Nat) = 2 ^ 8 - 1 := rfl
  rw [h, Nat.and_pow_two_sub_one_eq_mod]

theorem be_combine (b0 b1 b2 b3 : Nat) (h1 : b1 < 2 ^ 8) (h2 : b2 < 2 ^ 8) (h3 : b3 < 2 ^ 8) :
    (b0 <<< 24) ||| (b1 <<< 16) ||| (b2 <<< 8) ||| b3 =
      b0 * 2 ^ 24 + b1 * 2 ^ 16 + b2 * 2 ^ 8 + b3 := by
  rw [Nat.shiftLeft_eq, Nat.shiftLeft_eq, Nat.shiftLeft_eq]
  have hb1 : b1 * 2 ^ 16 < 2 ^ 24 := by
    calc b1 * 2 ^ 16 < 2 ^ 8 * 2 ^ 16 := by
          exact Nat.mul_lt_mul_of_lt_of_le h1 (Nat.le_refl _) (by norm_num)
      _ = 2 ^ 24 := by norm_num
  have hb2 : b2 * 2 ^ 8 < 2 ^ 16 := by
    calc b2 * 2 ^ 8 < 2 ^ 8 * 2 ^ 8 := by
          exact Nat.mul_lt_mul_of_lt_of_le h2 (Nat.le_refl _) (by norm_num)
      _ = 2 ^ 16 := by norm_num
  have e1 : b0 * 2 ^ 24 ||| b1 * 2 ^ 16 = b0 * 2 ^ 24 + b1 * 2 ^ 16 := by
    calc b0 * 2 ^ 24 ||| b1 * 2 ^ 16 = 2 ^ 24 * b0 ||| b1 * 2 ^ 16 := by rw [Nat.mul_comm]
      _ = 2 ^ 24 * b0 + b1 * 2 ^ 16 := (Nat.mul_add_lt_is_or hb1 b0).symm
      _ = b0 * 2 ^ 24 + b1 * 2 ^ 16 := by rw [Nat.mul_comm]
  rw [e1]
  have e2 : (b0 * 2 ^ 24 + b1 * 2 ^ 16) ||| b2 * 2 ^ 8 =
      b0 * 2 ^ 24 + b1 * 2 ^ 16 + b2 * 2 ^ 8 := by
    have hfac : b0 * 2 ^ 24 + b1 * 2 ^ 16 = 2 ^ 16 * (b0 * 2 ^ 8 + b1) := by ring
    rw [hfac]
    exact (Nat.mul_add_lt_is_or hb2 (b0 * 2 ^ 8 + b1)).symm
  rw [e2]
  have hfac3 : b0 * 2 ^ 24 + b1 * 2 ^ 16 + b2 * 2 ^ 8 =
      2 ^ 8 * (b0 * 2 ^ 16 + b1 * 2 ^ 8 + b2) := by ring
  rw [hfac3]
  exact (Nat.mul_add_lt_is_or h3 (b0 * 2 ^ 16 + b1 * 2 ^ 8 + b2)).symm

theorem storeWord_at0 (m : Nat → Nat) (a v : Nat) :
    MIPSSimulator.storeWord m a v a = (v >>> 24) &&& 0xFF := by
  unfold MIPSSimulator.storeWord
  rw [store_other _ _ _ _ (by omega), store_other _ _ _ _ (by omega),
      store_other _ _ _ _ (by omega), store_self]

theorem storeWord_at1 (m : Nat → Nat) (a v : Nat) :
    MIPSSimulator.storeWord m a v (a + 1) = (v >>> 16) &&& 0xFF := by
  unfold MIPSSimulator.storeWord
  rw [store_other _ _ _ _ (by omega), store_other _ _ _ _ (by omega), store_self]

theorem storeWord_at2 (m : Nat → Nat) (a v : Nat) :
    MIPSSimulator.storeWord m a v (a + 2) = (v >>> 8) &&& 0xFF := by
  unfold MIPSSimulator.storeWord
  rw [store_other _ _ _ _ (by omega), store_self]

theorem storeWord_at3 (m : Nat → Nat) (a v : Nat) :
    MIPSSimulator.storeWord m a v (a + 3) = v &&& 0xFF := by
  unfold MIPSSimulator.storeWord
  rw [store_self]

theorem storeWord_loadWord (m : Nat → Nat) (a v : Nat) (hv : v < 2 ^ 32) :
    MIPSSimulator.loadWord (MIPSSimulator.storeWord m a v) a = v := by
  unfold MIPSSimulator.loadWord
  rw [storeWord_at0, storeWord_at1, storeWord_at2, storeWord_at3,
      shiftRight_and_ff, shiftRight_and_ff, shiftRight_and_ff, and_ff]
  rw [be_combine _ _ _ _ (Nat.mod_lt _ (by norm_num)) (Nat.mod_lt _ (by norm_num))
      (Nat.mod_lt _ (by norm_num))]
  have p8 : (2 : Nat) ^ 8 = 256 := by norm_num
  have p16 : (2 : Nat) ^ 16 = 65536 := by norm_num
  have p24 : (2 : Nat) ^ 24 = 16777216 := by norm_num
  have p32 : (2 : Nat) ^ 32 = 4294967296 := by norm_num
  rw [p8, p16, p24] at *
  rw [p32] at hv
  omega

/-- C8: for every in-range address `a` (`a + 3` below the memory size) and
every 32-bit value `v`, storing `v` as a word at `a` and reading the word back
returns `v`, and the layout is big-endian: byte `a` is the most significant
byte and bytes `a`..`a+3` hold `v / 2^24 % 256`, `v / 2^16 % 256`,
`v / 2^8 % 256`, `v % 256` in order. -/
theorem c8_word_roundtrip_big_endian (s : MIPSSimulator.State) (a v : Nat)
    (ha : MIPSSimulator.isValidAddress a = true) (hv : v < 2 ^ 32) :
    MIPSSimulator.getMemory (MIPSSimulator.setMemory s a v) a = v ∧
    (MIPSSimulator.setMemory s a v).memory a = v / 2 ^ 24 % 2 ^ 8 ∧
    (MIPSSimulator.setMemory s a v).memory (a + 1) = v / 2 ^ 16 % 2 ^ 8 ∧
    (MIPSSimulator.setMemory s a v).memory (a + 2) = v / 2 ^ 8 % 2 ^ 8 ∧
    (MIPSSimulator.setMemory s a v).memory (a + 3) = v % 2 ^ 8 := by
  have hset : (MIPSSimulator.setMemory s a v).memory = MIPSSimulator.storeWord s.memory a v := by
    unfold MIPSSimulator.setMemory
    rw [if_pos ha]
  refine ⟨?_, ?_, ?_, ?_, ?_⟩
  · unfold MIPSSimulator.getMemory
    rw [if_pos ha, hset, storeWord_loadWord _ _ _ hv]
  · rw [hset, storeWord_at0, shiftRight_and_ff]
  · rw [hset, storeWord_at1, shiftRight_and_ff]
  · rw [hset, storeWord_at2, shiftRight_and_ff]
  · rw [hset, storeWord_at3, and_ff]

/-- C8 witness: storing `0x11223344` at address `0x0100` reads back as
`0x11223344`, with `0x11` in the byte at `0x0100`. -/
theorem c8_word_roundtrip_big_endian_witness :
    MIPSSimulator.getMemory (MIPSSimulator.setMemory MIPSSimulator.create 0x0100 0x11223344) 0x0100 =
      0x11223344 ∧
    (MIPSSimulator.setMemory MIPSSimulator.create 0x0100 0x11223344).memory 0x0100 = 0x11 := by
  have h := c8_word_roundtrip_big_endian MIPSSimulator.create 0x0100 0x11223344
    (by decide) (by norm_num)
  exact ⟨h.1, by rw [h.2.1]; norm_num⟩

theorem executeWB_registers_zero (p : Pipeline) (registers : Nat → Nat) :
    (p.executeWB registers).2 0 = registers 0 := by
  unfold Pipeline.executeWB
  by_cases h1 : p.MEM_WB.valid && p.MEM_WB.regWrite
  · rw [if_pos h1]
    by_cases h2 : p.MEM_WB.writeReg ≠ 0
    · rw [if_pos h2]
      exact store_other _ _ _ _ (fun he => h2 he.symm)
    · rw [if_neg h2]
  · rw [if_neg h1]

theorem tickStages_registers_zero (p : Pipeline) (fi : Instruction) (pc : Nat)
    (registers : Nat → Nat) (memory : ByteVec) :
    (p.tickStages fi pc registers memory).2.1 0 = registers 0 := by
  unfold Pipeline.tickStages
  exact executeWB_registers_zero p registers

theorem tick_registers_zero (p : Pipeline) (fi : Instruction) (pc : Nat)
    (registers : Nat → Nat) (memory : ByteVec) :
    (p.tick fi pc registers memory).2.1 0 = registers 0 := by
  unfold Pipeline.tick
  dsimp only
  split
  · split
    · rfl
    · exact tickStages_registers_zero _ _ _ _ _
  · split
    · split
      · exact tickStages_registers_zero _ _ _ _ _
      · exact tickStages_registers_zero _ _ _ _ _
    · exact tickStages_registers_zero _ _ _ _ _

theorem executeSingleCycle_registers_zero (s : MIPS) (instr : Instruction) :
    (s.executeSingleCycle instr).registers 0 = 0 := by
  unfold MIPS.executeSingleCycle
  dsimp only
  exact store_self _ _ _

theorem mipsStep_registers_zero (s : MIPS) (h : s.registers 0 = 0) :
    (MIPS.step s).registers 0 = 0 := by
  unfold MIPS.step
  by_cases hg : 0x400000 + s.instructions.length * 4 ≤ s.pc
  · rw [if_pos hg]; exact h
  · rw [if_neg hg]
    by_cases hp : s.pipelineEnabled
    · simp only [hp, if_true]
      rw [tick_registers_zero]
      exact h
    · simp only [hp, if_false]
      exact executeSingleCycle_registers_zero _ _

theorem executeInstruction_fst (s : MIPSSimulator.State) (instr : MIPSSimulator.Instruction) :
    (MIPSSimulator.executeInstruction s instr).1 = true := rfl

theorem simStep_registers_zero (s : MIPSSimulator.State) (h : s.registers 0 = 0) :
    (MIPSSimulator.step s).2.registers 0 = 0 := by
  unfold MIPSSimulator.step
  split
  · exact h
  · split
    · dsimp only
      exact store_self _ _ _
    · split
      · exact h
      · dsimp only
        split
        · rename_i hfalse
          rw [executeInstruction_fst] at hfalse
          simp at hfalse
        · dsimp only
          exact store_self _ _ _

/-- C2: register 0 always reads as 0 after a step.  `MIPS::executeSingleCycle`
forces register 0 back to zero after every instruction; `Pipeline::executeWB`
never writes register 0 (a write-back targeting it is discarded); and one step
of either simulator core preserves `registers[0] == 0`. -/
theorem c2_register_zero_invariant :
    (∀ (s : MIPS) (instr : Instruction), (s.executeSingleCycle instr).registers 0 = 0) ∧
    (∀ (p : Pipeline) (registers : Nat → Nat), (p.executeWB registers).2 0 = registers 0) ∧
    (∀ (s : MIPS), s.registers 0 = 0 → (MIPS.step s).registers 0 = 0) ∧
    (∀ (s : MIPSSimulator.State), s.registers 0 = 0 → (MIPSSimulator.step s).2.registers 0 = 0) :=
  ⟨executeSingleCycle_registers_zero, executeWB_registers_zero,
   mipsStep_registers_zero, simStep_registers_zero⟩

/-- C2 witness: one step of a fresh `MIPS` core keeps register 0 at zero. -/
theorem c2_register_zero_invariant_witness : (MIPS.step MIPS.create).registers 0 = 0 :=
  c2_register_zero_invariant.2.2.1 MIPS.create (by decide)

/-- C10: register access through the `MIPSSimulator` accessors is
bounds-guarded and total: `getRegister` returns 0 for any index outside
`[0, 32)`, `setRegister` is a no-op there, and `setRegister(0, v)` is likewise
a no-op. -/
theorem c10_register_accessor_bounds :
    (∀ (s : MIPSSimulator.State) (idx : Int) (v : Nat), idx < 0 ∨ 32 ≤ idx →
      MIPSSimulator.getRegister s idx = 0 ∧ MIPSSimulator.setRegister s idx v = s) ∧
    (∀ (s : MIPSSimulator.State) (v : Nat), MIPSSimulator.setRegister s 0 v = s) := by
  constructor
  · intro s idx v h
    constructor
    · unfold MIPSSimulator.getRegister
      rw [if_neg (by omega)]
    · unfold MIPSSimulator.setRegister
      rw [if_neg (by omega)]
  · intro s v
    unfold MIPSSimulator.setRegister
    rw [if_neg (by omega)]

/-- C10 witness: index 32 is rejected by both accessors. -/
theorem c10_register_accessor_bounds_witness :
    MIPSSimulator.getRegister MIPSSimulator.create 32 = 0 ∧
    MIPSSimulator.setRegister MIPSSimulator.create 32 5 = MIPSSimulator.create :=
  c10_register_accessor_bounds.1 MIPSSimulator.create 32 5 (Or.inr (by norm_num))

theorem advancePipeline_fields (s : MIPSSimulator.State) :
    (MIPSSimulator.advancePipeline s).registers = s.registers ∧
    (MIPSSimulator.advancePipeline s).pipeline_enabled = s.pipeline_enabled ∧
    (MIPSSimulator.advancePipeline s).halted = s.halted ∧
    (MIPSSimulator.advancePipeline s).memory = s.memory := by
  unfold MIPSSimulator.advancePipeline MIPSSimulator.handleHazards
  split
  · exact ⟨rfl, rfl, rfl, rfl⟩
  · dsimp only
    split
    · exact ⟨rfl, rfl, rfl, rfl⟩
    · exact ⟨rfl, rfl, rfl, rfl⟩

theorem simStep_pipelined (s : MIPSSimulator.State) (hp : s.pipeline_enabled = true) :
    (MIPSSimulator.step s).2.registers 2 = s.registers 2 ∧
    (MIPSSimulator.step s).2.pipeline_enabled = true := by
  unfold MIPSSimulator.step
  split
  · exact ⟨rfl, hp⟩
  · dsimp only
    constructor
    · rw [store_other _ _ _ _ (by omega), (advancePipeline_fields s).1]
    · rw [(advancePipeline_fields s).2.1]
      exact hp

theorem simStepN_pipelined : ∀ (n : Nat) (s : MIPSSimulator.State),
    s.pipeline_enabled = true → s.registers 2 = 0 →
    (MIPSSimulator.stepN n s).registers 2 = 0 := by
  intro n
  induction n with
  | zero => intro s _ h2; exact h2
  | succ n ih =>
    intro s hp h2
    have hs := simStep_pipelined s hp
    exact ih _ hs.2 (hs.1.trans h2)

/-- C1 (code bug): the two execution paths of `MIPSSimulator::step` do not
agree on the hazard-free program `addi $v0, $zero, 5`.  With the pipeline
disabled one step executes the instruction and leaves `$v0 = 5`; with the
pipeline enabled `advancePipeline` only shifts stage metadata and never
executes anything, so after any number of steps `$v0` is still 0 — the two
paths cannot produce the same final register file. -/
theorem c1_pipelined_mode_never_executes :
    (MIPSSimulator.step simLoaded).2.registers 2 = 5 ∧
    ∀ n, (MIPSSimulator.stepN n simPiped).registers 2 = 0 := by
  constructor
  · decide
  · intro n
    exact simStepN_pipelined n simPiped (by decide) (by decide)

theorem mipsStep_pipelined_pc (s : MIPS) (hp : s.pipelineEnabled = true) :
    (MIPS.step s).pc = s.pc := by
  unfold MIPS.step
  split
  · rfl
  · dsimp only

/-- C3 counterexample: a taken `beq` resolving in EX.  The step leaves the PC
unchanged instead of redirecting it to the correct next address `0x400020`,
and the IF/ID latch is immediately refilled rather than left as a bubble;
the branch did resolve (it sits in EX/MEM afterwards). -/
theorem c3_taken_branch_no_redirect_cex :
    (MIPS.step beqState).pc = beqState.pc ∧
    ¬ ((MIPS.step beqState).pc = 0x400020) ∧
    (MIPS.step beqState).pipeline.EX_MEM.valid = true ∧
    (MIPS.step beqState).pipeline.EX_MEM.instruction.format = InstructionFormat.BEQ ∧
    (MIPS.step beqState).pipeline.IF_ID.valid = true :=
  ⟨by decide, by decide, by decide, by decide, by decide⟩

/-- C3 amended: `flushPipeline` turns IF/ID and ID/EX into bubbles and raises
the flush flag; when a `beq` resolves in EX, `executeEX` raises the flush flag
iff the branch is taken, where taken compares the forwarded rs-value with the
sign-extended immediate (the I-type operand), not with any IF-time prediction;
and a pipelined step never changes the PC (no redirect exists). -/
theorem c3_flush_semantics :
    (∀ (p : Pipeline), p.flushPipeline.IF_ID.valid = false ∧
      p.flushPipeline.ID_EX.valid = false ∧ p.flushPipeline.flush = true) ∧
    (∀ (p : Pipeline) (registers : Nat → Nat),
      p.ID_EX.valid = true →
      p.ID_EX.instruction.format = InstructionFormat.BEQ →
      p.ID_EX.instruction.type = InstructionType.I_TYPE →
      p.flush = false →
      ((p.executeEX registers).flush = true ↔
        p.hazardUnit.getForwardedValue p.ID_EX.instruction.rs (registers p.ID_EX.instruction.rs) =
          toUInt32 p.ID_EX.instruction.signedImmediate)) ∧
    (∀ (s : MIPS), s.pipelineEnabled = true → (MIPS.step s).pc = s.pc) := by
  refine ⟨fun p => ⟨rfl, rfl, rfl⟩, ?_, mipsStep_pipelined_pc⟩
  intro p registers hv hf ht hfl
  unfold Pipeline.executeEX
  rw [if_pos hv]
  simp only [Instruction.isBranch, hf, ht, hfl]
  simp

/-- C3 witness: on the concrete taken `beq`, `executeEX` raises the flush flag. -/
theorem c3_flush_semantics_witness :
    (beqState.pipeline.executeEX beqState.registers).flush = true := by
  have h := c3_flush_semantics.2.1 beqState.pipeline beqState.registers
    (by decide) (by decide) (by decide) (by decide)
  exact h.mpr (by decide)

/-- C9 counterexample: loading the image `["00000005", "zz"]` reports failure,
but the word parsed before the malformed line remains in memory (byte 3 holds
5), so the state is not left reset. -/
theorem c9_failed_load_leaves_partial_words_cex :
    (MIPSSimulator.loadProgramFromString MIPSSimulator.create badImage).1 = false ∧
    (MIPSSimulator.loadProgramFromString MIPSSimulator.create badImage).2.memory 3 ≠ 0 :=
  ⟨by decide, by decide⟩

/-- C9 amended: a malformed line makes `loadProgramFromString` report failure
(returns `false`), but the simulator is then not reset: registers, PC and the
halted flag keep their old values (and the words stored before the bad line
stay in memory); only a successful load resets the state. -/
theorem c9_load_failure_amended (s : MIPSSimulator.State) (lines : List (List Char)) :
    ((MIPSSimulator.loadProgramFromString s lines).1 = false →
      (MIPSSimulator.loadProgramFromString s lines).2.registers = s.registers ∧
      (MIPSSimulator.loadProgramFromString s lines).2.pc = s.pc ∧
      (MIPSSimulator.loadProgramFromString s lines).2.halted = s.halted) ∧
    ((MIPSSimulator.loadProgramFromString s lines).1 = true →
      (MIPSSimulator.loadProgramFromString s lines).2.registers = (fun _ => 0) ∧
      (MIPSSimulator.loadProgramFromString s lines).2.pc = 0 ∧
      (MIPSSimulator.loadProgramFromString s lines).2.halted = false) := by
  unfold MIPSSimulator.loadProgramFromString
  dsimp only
  split
  · constructor
    · intro hc
      simp at hc
    · intro _
      unfold MIPSSimulator.reset MIPSSimulator.initializePipeline
      dsimp only
      split
      · exact ⟨rfl, rfl, rfl⟩
      · exact ⟨rfl, rfl, rfl⟩
  · constructor
    · intro _
      exact ⟨rfl, rfl, rfl⟩
    · intro hc
      simp at hc

/-- C9 witness: on the malformed image the PC is left untouched. -/
theorem c9_load_failure_amended_witness :
    (MIPSSimulator.loadProgramFromString MIPSSimulator.create badImage).2.pc =
      MIPSSimulator.create.pc :=
  ((c9_load_failure_amended MIPSSimulator.create badImage).1 (by decide)).2.1

/-- C7 counterexample: for the address `0xFFFFFFFD` the bounds check
`address + 3 < memory.size()` wraps in `uint32_t` and passes, so the word read
is not 0 (it assembles whatever the out-of-bounds cells hold) and the word
store modifies memory — the wrapped final byte index even lands on the
in-range cell 0. -/
theorem c7_out_of_range_wraparound_cex :
    ¬ (Pipeline.getMemoryWord sevenMem 0xFFFFFFFD = 0) ∧
    (Pipeline.setMemoryWord sevenMem 0xFFFFFFFD 0x11223344).bytes 0 ≠ sevenMem.bytes 0 :=
  ⟨by decide, by decide⟩

/-- C7 amended: for every out-of-range address whose `a + 3` does not overflow
`uint32_t` (that is, `a ≤ 2^32 - 4`), a word read returns 0 and a word write
leaves the memory unchanged; byte reads and writes are guarded exactly, so any
address at or beyond the memory size reads 0 and writes are dropped. -/
theorem c7_out_of_range_amended :
    (∀ (m : ByteVec) (a v : Nat), a + 3 < 2 ^ 32 → ¬ (a + 3 < m.size) →
      Pipeline.getMemoryWord m a = 0 ∧ Pipeline.setMemoryWord m a v = m) ∧
    (∀ (s : MIPS) (a v : Nat), ¬ (a < s.memory.size) →
      MIPS.getMemoryByte s a = 0 ∧ MIPS.setMemoryByte s a v = s) := by
  constructor
  · intro m a v h32 hout
    have hu : u32 (a + 3) = a + 3 := Nat.mod_eq_of_lt h32
    constructor
    · unfold Pipeline.getMemoryWord
      rw [hu, if_neg hout]
    · unfold Pipeline.setMemoryWord
      rw [hu, if_neg hout]
  · intro s a v hout
    constructor
    · unfold MIPS.getMemoryByte
      rw [if_neg hout]
    · unfold MIPS.setMemoryByte
      rw [if_neg hout]

/-- C7 witness: address `0x100000` (the memory size) reads as 0 through both
the word and the byte accessor. -/
theorem c7_out_of_range_amended_witness :
    Pipeline.getMemoryWord sevenMem 0x100000 = 0 ∧
    MIPS.getMemoryByte MIPS.create 0x100000 = 0 :=
  ⟨(c7_out_of_range_amended.1 sevenMem 0x100000 0 (by norm_num) (by decide)).1,
   (c7_out_of_range_amended.2 MIPS.create 0x100000 0 (by decide)).1⟩

theorem bimodal_getIndex_eq (s : BimodalPredictor) (pc : Nat) :
    s.getIndex pc = (pc >>> 2) % 2 ^ s.indexBits := by
  unfold BimodalPredictor.getIndex
  rw [Nat.shiftLeft_eq, one_mul, Nat.and_pow_two_sub_one_eq_mod]

theorem bimodal_update_table_le (s : BimodalPredictor) (pc : Nat) (b : Bool) (t : Nat)
    (h : ∀ i, s.table i ≤ 3) : ∀ i, (s.update pc b t).table i ≤ 3 := by
  intro i
  unfold BimodalPredictor.update
  dsimp only
  split
  · split
    · rename_i hc
      by_cases hij : i = s.getIndex pc
      · subst hij
        rw [store_self]
        omega
      · rw [store_other _ _ _ _ hij]
        exact h i
    · split
      · by_cases hij : i = s.getIndex pc
        · subst hij
          rw [store_self]
          have := h (s.getIndex pc)
          omega
        · rw [store_other _ _ _ _ hij]
          exact h i
      · exact h i
  · by_cases hij : i = s.getIndex pc
    · subst hij
      rw [store_self]
      split <;> omega
    · rw [store_other _ _ _ _ hij]
      exact h i

theorem runCalls_preserve {σ : Type} (upd : σ → Nat → Bool → Nat → σ) (P : σ → Prop)
    (hstep : ∀ s pc b t, P s → P (upd s pc b t)) :
    ∀ (ops : List PredCall) (s : σ), P s → P (runCalls upd s ops) := by
  intro ops
  induction ops with
  | nil => intro s hs; exact hs
  | cons op rest ih =>
    intro s hs
    cases op with
    | query pc t => exact ih s hs
    | observe pc b t => exact ih _ (hstep s pc b t hs)

theorem bimodal_update_twoBit (s : BimodalPredictor) (pc : Nat) (b : Bool) (t : Nat) :
    (s.update pc b t).twoBit = s.twoBit := rfl

/-- C4: the 2-bit bimodal predictor.  At construction every table entry is
WNT = 1; `predict` returns taken iff the entry indexed by `(pc >> 2) mod 2^k`
is at least 2; `update` increments the indexed entry on taken saturating at 3
and decrements on not-taken saturating at 0, leaving other entries alone; and
after any sequence of predict/update calls every entry stays within `[0, 3]`. -/
theorem c4_bimodal_two_bit_fsm (k : Nat) :
    (∀ i, (BimodalPredictor.create PredictorType.BIMODAL_2BIT k).table i = 1) ∧
    (∀ (s : BimodalPredictor) (pc t : Nat), s.twoBit = true →
      (s.predict pc t = true ↔ 2 ≤ s.table ((pc >>> 2) % 2 ^ s.indexBits))) ∧
    (∀ (s : BimodalPredictor) (pc t : Nat) (b : Bool) (j : Nat),
      s.twoBit = true → (∀ i, s.table i ≤ 3) →
      ((s.update pc b t).table (s.getIndex pc) =
        (if b then min (s.table (s.getIndex pc) + 1) 3 else s.table (s.getIndex pc) - 1)) ∧
      (j ≠ s.getIndex pc → (s.update pc b t).table j = s.table j)) ∧
    (∀ (ops : List PredCall) (i : Nat),
      (runCalls BimodalPredictor.update (BimodalPredictor.create PredictorType.BIMODAL_2BIT k)
        ops).table i ≤ 3) := by
  refine ⟨?_, ?_, ?_, ?_⟩
  · intro i
    simp [BimodalPredictor.create]
  · intro s pc t htw
    unfold BimodalPredictor.predict
    rw [bimodal_getIndex_eq]
    simp [htw]
  · intro s pc t b j htw hle
    constructor
    · unfold BimodalPredictor.update
      dsimp only
      rw [if_pos htw]
      have hT := hle (s.getIndex pc)
      cases b with
      | true =>
        by_cases hlt : s.table (s.getIndex pc) < 3
        · rw [if_pos ⟨rfl, hlt⟩, store_self, if_pos rfl]
          exact (min_eq_left (by omega)).symm
        · rw [if_neg (fun hc => hlt hc.2), if_neg (by simp), if_pos rfl]
          have ht3 : s.table (s.getIndex pc) = 3 := by omega
          rw [ht3]
          decide
      | false =>
        by_cases hpos : 0 < s.table (s.getIndex pc)
        · rw [if_neg (by simp), if_pos ⟨by simp, hpos⟩, store_self, if_neg (by simp)]
        · rw [if_neg (by simp), if_neg (fun hc => hpos hc.2), if_neg (by simp)]
          omega
    · intro hj
      unfold BimodalPredictor.update
      dsimp only
      rw [if_pos htw]
      split
      · rw [store_other _ _ _ _ hj]
      · split
        · rw [store_other _ _ _ _ hj]
        · rfl
  · intro ops i
    refine runCalls_preserve BimodalPredictor.update (fun s => ∀ i, s.table i ≤ 3)
      (fun s pc b t h => bimodal_update_table_le s pc b t h) ops _ ?_ i
    intro j
    simp [BimodalPredictor.create]

/-- C4 witness: starting from WNT, one taken outcome moves the indexed entry
to WT = 2. -/
theorem c4_bimodal_two_bit_fsm_witness :
    (BimodalPredictor.update (BimodalPredictor.create PredictorType.BIMODAL_2BIT 4) 0 true 0).table
      (BimodalPredictor.getIndex (BimodalPredictor.create PredictorType.BIMODAL_2BIT 4) 0) = 2 := by
  have h := ((c4_bimodal_two_bit_fsm 4).2.2.1
    (BimodalPredictor.create PredictorType.BIMODAL_2BIT 4) 0 0 true 0
    (by decide) (fun i => by simp [BimodalPredictor.create])).1
  rw [h]
  decide

theorem record_wellFormed (st : BranchStats) (b : Bool) (h : statsWellFormed st) :
    statsWellFormed (st.record b) := by
  obtain ⟨h1, -⟩ := h
  constructor
  · cases b <;> simp [BranchStats.record] <;> omega
  · intro _
    cases b <;> simp [BranchStats.record]

theorem statsInit_wellFormed : statsWellFormed BranchStats.init := by
  constructor
  · rfl
  · intro h
    exact absurd h (by norm_num [BranchStats.init])

theorem static_update_wf (s : StaticPredictor) (pc : Nat) (b : Bool) (t : Nat)
    (h : statsWellFormed s.stats) : statsWellFormed (s.update pc b t).stats :=
  record_wellFormed _ _ h

theorem btfn_update_wf (s : BTFNPredictor) (pc : Nat) (b : Bool) (t : Nat)
    (h : statsWellFormed s.stats) : statsWellFormed (s.update pc b t).stats :=
  record_wellFormed _ _ h

theorem bimodal_update_wf (s : BimodalPredictor) (pc : Nat) (b : Bool) (t : Nat)
    (h : statsWellFormed s.stats) : statsWellFormed (s.update pc b t).stats :=
  record_wellFormed _ _ h

theorem gshare_update_wf (s : GsharePredictor) (pc : Nat) (b : Bool) (t : Nat)
    (h : statsWellFormed s.stats) : statsWellFormed (s.update pc b t).stats :=
  record_wellFormed _ _ h

theorem local_update_wf (s : LocalHistoryPredictor) (pc : Nat) (b : Bool) (t : Nat)
    (h : statsWellFormed s.stats) : statsWellFormed (s.update pc b t).stats :=
  record_wellFormed _ _ h

theorem tournament_update_wf (s : TournamentPredictor) (pc : Nat) (b : Bool) (t : Nat)
    (h : statsWellFormed s.stats) : statsWellFormed (s.update pc b t).stats :=
  record_wellFormed _ _ h

/-- C5 counterexample: on the `branch_predictor.cpp` class, one `predict` call
already breaks `correct + mispredicted == total`: `total_predictions` counts
`predict` calls while the outcome counters count `update` calls. -/
theorem c5_stats_identity_cex :
    ¬ ((bp5NT.predict 0).2.stats.correct_predictions +
       (bp5NT.predict 0).2.stats.incorrect_predictions =
       (bp5NT.predict 0).2.stats.total_predictions) := by decide

/-- C5 amended: for every predictor of the `BranchPredictor.hpp` family
(static, BTFN, bimodal, gshare, local-history, tournament), after any sequence
of predict and update calls the statistics satisfy
`correct + mispredicted == total` and, whenever `total > 0`,
`accuracy == correct / total`.  (In the `branch_predictor.cpp` class the
identity fails, since `total_predictions` counts `predict` calls — see the
counterexample — and its `accuracy` is a percentage.) -/
theorem c5_stats_identity_amended (ops : List PredCall) (t : PredictorType) (b : Bool)
    (k hb ib lb pb cb : Nat) :
    statsWellFormed (runCalls StaticPredictor.update (StaticPredictor.create t b) ops).stats ∧
    statsWellFormed (runCalls BTFNPredictor.update BTFNPredictor.create ops).stats ∧
    statsWellFormed (runCalls BimodalPredictor.update (BimodalPredictor.create t k) ops).stats ∧
    statsWellFormed (runCalls GsharePredictor.update (GsharePredictor.create hb ib) ops).stats ∧
    statsWellFormed
      (runCalls LocalHistoryPredictor.update (LocalHistoryPredictor.create lb pb) ops).stats ∧
    statsWellFormed (runCalls TournamentPredictor.update (TournamentPredictor.create cb) ops).stats :=
  ⟨runCalls_preserve _ (fun s => statsWellFormed s.stats)
     (fun s pc b' t' h => static_update_wf s pc b' t' h) ops _ statsInit_wellFormed,
   runCalls_preserve _ (fun s => statsWellFormed s.stats)
     (fun s pc b' t' h => btfn_update_wf s pc b' t' h) ops _ statsInit_wellFormed,
   runCalls_preserve _ (fun s => statsWellFormed s.stats)
     (fun s pc b' t' h => bimodal_update_wf s pc b' t' h) ops _ statsInit_wellFormed,
   runCalls_preserve _ (fun s => statsWellFormed s.stats)
     (fun s pc b' t' h => gshare_update_wf s pc b' t' h) ops _ statsInit_wellFormed,
   runCalls_preserve _ (fun s => statsWellFormed s.stats)
     (fun s pc b' t' h => local_update_wf s pc b' t' h) ops _ statsInit_wellFormed,
   runCalls_preserve _ (fun s => statsWellFormed s.stats)
     (fun s pc b' t' h => tournament_update_wf s pc b' t' h) ops _ statsInit_wellFormed⟩

/-- C5 witness: after one recorded not-taken outcome the static-not-taken
predictor reports accuracy `1 / 1 = 1`. -/
theorem c5_stats_identity_amended_witness :
    (runCalls StaticPredictor.update
      (StaticPredictor.create PredictorType.STATIC_NOT_TAKEN false)
      [PredCall.observe 0 false 0]).stats.accuracy = 1 := by
  have h := (c5_stats_identity_amended [PredCall.observe 0 false 0]
    PredictorType.STATIC_NOT_TAKEN false 0 0 0 0 0 0).1
  have h2 := h.2 (by decide)
  rw [h2]
  have hc : (runCalls StaticPredictor.update
      (StaticPredictor.create PredictorType.STATIC_NOT_TAKEN false)
      [PredCall.observe 0 false 0]).stats.correctPredictions = 1 := by decide
  have ht : (runCalls StaticPredictor.update
      (StaticPredictor.create PredictorType.STATIC_NOT_TAKEN false)
      [PredCall.observe 0 false 0]).stats.totalBranches = 1 := by decide
  rw [hc, ht]
  norm_num

/-- C6 counterexample: `BranchPredictor::predict` of `branch_predictor.cpp` is
not a pure query — a single call changes the statistics
(`total_predictions` is incremented inside `predict`). -/
theorem c6_predict_purity_cex :
    ¬ ((bp5NT.predict 0).2.stats.total_predictions = bp5NT.stats.total_predictions) := by decide

/-- C6 amended: in the `BranchPredictor.hpp` family `predict` performs no
member write and `update` recomputes the prediction from the current state
(the correct-prediction counter advances exactly when `predict` of the
pre-update state agrees with the outcome, shown for the bimodal, gshare and
tournament predictors).  The `branch_predictor.cpp` class deviates: its
`predict` increments `total_predictions` on every call and inserts a default
weakly-not-taken entry into the branch history table for an unseen pc. -/
theorem c6_predict_effects_amended :
    (∀ (s : BranchPredictor) (pc : Nat),
      (s.predict pc).2.stats.total_predictions = s.stats.total_predictions + 1) ∧
    (∀ (s : BranchPredictor) (pc : Nat),
      s.predictor_type = BranchPredictor.PredictorType.DYNAMIC_2BIT →
      s.branch_history_table pc = none →
      (s.predict pc).2.branch_history_table pc = some 1) ∧
    (∀ (s : BimodalPredictor) (pc : Nat) (b : Bool) (t : Nat),
      (s.update pc b t).stats.correctPredictions =
        s.stats.correctPredictions + (if s.predict pc t = b then 1 else 0)) ∧
    (∀ (s : GsharePredictor) (pc : Nat) (b : Bool) (t : Nat),
      (s.update pc b t).stats.correctPredictions =
        s.stats.correctPredictions + (if s.predict pc t = b then 1 else 0)) ∧
    (∀ (s : TournamentPredictor) (pc : Nat) (b : Bool) (t : Nat),
      (s.update pc b t).stats.correctPredictions =
        s.stats.correctPredictions + (if s.predict pc t = b then 1 else 0)) := by
  refine ⟨?_, ?_, ?_, ?_, ?_⟩
  · intro s pc
    unfold BranchPredictor.predict
    cases s.predictor_type <;> dsimp only <;> first | rfl | (split <;> rfl)
  · intro s pc htype hnone
    simp [BranchPredictor.predict, htype, hnone, store]
  · intro s pc b t
    unfold BimodalPredictor.update BranchStats.record
    dsimp only
    by_cases hc : s.predict pc t = b
    · simp [hc]
    · simp [hc]
  · intro s pc b t
    unfold GsharePredictor.update BranchStats.record
    dsimp only
    by_cases hc : s.predict pc t = b
    · simp [hc]
    · simp [hc]
  · intro s pc b t
    unfold TournamentPredictor.update BranchStats.record
    dsimp only
    by_cases hc : s.predict pc t = b
    · simp [hc]
    · simp [hc]

/-- C6 witness: predicting once at a fresh pc inserts the weakly-not-taken
entry into the dynamic 2-bit table. -/
theorem c6_predict_effects_amended_witness :
    ((BranchPredictor.create BranchPredictor.PredictorType.DYNAMIC_2BIT).predict 0).2.branch_history_table 0 =
      some 1 :=
  c6_predict_effects_amended.2.1
    (BranchPredictor.create BranchPredictor.PredictorType.DYNAMIC_2BIT) 0 rfl rfl
